import Mathlib

/-!
Verification of the AkamaiOPEN-edgegrid-golang SDK slice consisting of
`pkg/papi/search.go`, `pkg/papi/errors.go`, the papi include-version
operations, the appsec configuration-version-clone operations and the
ivm error decoder.

Go strings are modelled as Lean `String`, Go `int` as `Int`, Go `error`
values as explicit inductive types, and the shared HTTP transport
(`session.Exec`) as an oracle function supplied to each operation.  Each
operation records the list of HTTP requests it hands to the transport, so
"no network call is made" is the statement that this list is empty.
-/

/-! ### A model of the `net/url` subset used by the SDK

`url.Parse`, `URL.String`, `URL.Query`/`Values.Encode` and
`url.QueryEscape` as used by the operations on server-relative URLs
(path, optional query, optional fragment; no scheme or authority ever
occurs in the SDK's URL strings, which all begin with `"/papi"` or
`"/appsec"`). -/

/-- Go `net/url` rejects URLs containing an ASCII control byte
(`stringContainsCTLByte`). -/
def isCTL (c : Char) : Bool := c.toNat < 0x20 || c.toNat == 0x7f

/-- ASCII hexadecimal digit, as accepted by `net/url.ishex`. -/
def isHexDigit (c : Char) : Bool :=
  (48 ≤ c.toNat && c.toNat ≤ 57) ||
  (65 ≤ c.toNat && c.toNat ≤ 70) ||
  (97 ≤ c.toNat && c.toNat ≤ 102)

/-- Numeric value of a hexadecimal digit (`net/url.unhex`). -/
def hexVal (c : Char) : Nat :=
  if 48 ≤ c.toNat && c.toNat ≤ 57 then c.toNat - 48
  else if 65 ≤ c.toNat && c.toNat ≤ 70 then c.toNat - 55
  else if 97 ≤ c.toNat && c.toNat ≤ 102 then c.toNat - 87
  else 0

/-- Every `'%'` in the list is followed by two hexadecimal digits; this is
the validity check `net/url.unescape` performs on path and fragment
components (an invalid escape makes `url.Parse` fail). -/
def validEscapes : List Char → Bool
  | [] => true
  | c :: rest =>
    if c = '%' then
      match rest with
      | a :: b :: rest2 => isHexDigit a && isHexDigit b && validEscapes rest2
      | _ => false
    else validEscapes rest

/-- Percent-decoding of a path component (`net/url.unescape` with
`encodePath`; `'+'` is left alone in path mode).  On a list accepted by
`validEscapes` this decodes every `%XX`; malformed escapes are dropped,
a case `url.Parse` never reaches because it checks validity first. -/
def unescapeChars : List Char → List Char
  | [] => []
  | c :: rest =>
    if c = '%' then
      match rest with
      | a :: b :: rest2 => Char.ofNat (16 * hexVal a + hexVal b) :: unescapeChars rest2
      | [a] => [a]
      | [] => []
    else c :: unescapeChars rest

/-- Split a list at the first occurrence of `c`; the second component is
`none` when `c` does not occur.  Used to model how `url.Parse` cuts off
the fragment (at `'#'`) and the query (at `'?'`). -/
def splitOnFirst (c : Char) : List Char → List Char × Option (List Char)
  | [] => ([], none)
  | x :: xs =>
    if x = c then ([], some xs)
    else
      let p := splitOnFirst c xs
      (x :: p.1, p.2)

/-- The components of a parsed server-relative `url.URL`: the path as it
appeared in the input (`EscapedPath`), the decoded path (`Path`), the raw
query (`RawQuery`) and the raw fragment. -/
structure GoURL where
  rawPath : String
  path : String
  rawQuery : String
  rawFragment : String
deriving DecidableEq

/-- `url.Parse` on a server-relative URL string: fails on ASCII control
characters and on invalid percent-escapes in the path or fragment; cuts
the fragment at the first `'#'` and the query at the first `'?'`; the
query's escapes are not validated at parse time. -/
def urlParse (s : String) : Option GoURL :=
  let cs := s.data
  if cs.any isCTL then none
  else
    let fragSplit := splitOnFirst '#' cs
    let fragL := fragSplit.2.getD []
    if !validEscapes fragL then none
    else
      let querySplit := splitOnFirst '?' fragSplit.1
      if !validEscapes querySplit.1 then none
      else
        some ⟨⟨querySplit.1⟩, ⟨unescapeChars querySplit.1⟩,
              ⟨querySplit.2.getD []⟩, ⟨fragL⟩⟩

/-- `url.URL.String` for a server-relative URL: escaped path, then
`"?" ++ RawQuery` when the query is non-empty, then `"#" ++ fragment`
when the fragment is non-empty. -/
def GoURL.urlString (u : GoURL) : String :=
  u.rawPath ++ (if u.rawQuery = "" then "" else "?" ++ u.rawQuery)
    ++ (if u.rawFragment = "" then "" else "#" ++ u.rawFragment)

/-- The characters Go's `url.shouldEscape` leaves unescaped in a query
component (`encodeQueryComponent`): ASCII alphanumerics and `-_.~`. -/
def goUnreserved (c : Char) : Bool :=
  (65 ≤ c.toNat && c.toNat ≤ 90) || (97 ≤ c.toNat && c.toNat ≤ 122) ||
  (48 ≤ c.toNat && c.toNat ≤ 57) ||
  c = '-' || c = '_' || c = '.' || c = '~'

/-- Uppercase hexadecimal digit, as emitted by `net/url.escape`. -/
def hexDigitUpper (n : Nat) : Char :=
  if n = 0 then '0' else if n = 1 then '1' else if n = 2 then '2'
  else if n = 3 then '3' else if n = 4 then '4' else if n = 5 then '5'
  else if n = 6 then '6' else if n = 7 then '7' else if n = 8 then '8'
  else if n = 9 then '9' else if n = 10 then 'A' else if n = 11 then 'B'
  else if n = 12 then 'C' else if n = 13 then 'D' else if n = 14 then 'E'
  else 'F'

/-- UTF-8 encoding of a character, byte by byte; Go strings are byte
strings and `net/url.escape` escapes each byte of a multi-byte character
separately. -/
def utf8Bytes (c : Char) : List Nat :=
  let n := c.toNat
  if n < 0x80 then [n]
  else if n < 0x800 then [0xC0 + n / 0x40, 0x80 + n % 0x40]
  else if n < 0x10000 then
    [0xE0 + n / 0x1000, 0x80 + (n / 0x40) % 0x40, 0x80 + n % 0x40]
  else
    [0xF0 + n / 0x40000, 0x80 + (n / 0x1000) % 0x40,
     0x80 + (n / 0x40) % 0x40, 0x80 + n % 0x40]

/-- `url.QueryEscape` on one character: unreserved characters stay, a
space becomes `'+'`, every other byte becomes `%XX` with uppercase hex. -/
def queryEscapeChar (c : Char) : List Char :=
  if goUnreserved c then [c]
  else if c = ' ' then ['+']
  else (utf8Bytes c).flatMap fun b => ['%', hexDigitUpper (b / 16), hexDigitUpper (b % 16)]

/-- `url.QueryEscape`. -/
def queryEscape (s : String) : String := ⟨s.data.flatMap queryEscapeChar⟩

/-- Split a list at every occurrence of `c` (`strings.Cut` iterated, as in
`url.ParseQuery`). -/
def splitAll (c : Char) : List Char → List (List Char)
  | [] => [[]]
  | x :: xs =>
    if x = c then [] :: splitAll c xs
    else
      match splitAll c xs with
      | [] => [[x]]
      | seg :: segs => (x :: seg) :: segs

/-- `url.QueryUnescape` on one character list: `'+'` becomes a space,
`%XX` decodes. -/
def queryUnescapeChars : List Char → List Char
  | [] => []
  | c :: rest =>
    if c = '%' then
      match rest with
      | a :: b :: rest2 => Char.ofNat (16 * hexVal a + hexVal b) :: queryUnescapeChars rest2
      | [a] => [a]
      | [] => []
    else if c = '+' then ' ' :: queryUnescapeChars rest
    else c :: queryUnescapeChars rest

/-- `url.QueryUnescape`: fails on an invalid percent-escape. -/
def queryUnescape (s : String) : Option String :=
  if validEscapes s.data then some ⟨queryUnescapeChars s.data⟩ else none

/-- `url.ParseQuery`, as invoked by `URL.Query()`: split on `'&'`, skip
empty segments and segments containing `';'`, cut each segment at the
first `'='`, unescape key and value and skip the pair when unescaping
fails.  Pairs are kept in input order. -/
def parseQuery (s : String) : List (String × String) :=
  (splitAll '&' s.data).filterMap fun seg =>
    if seg.isEmpty then none
    else if seg.contains ';' then none
    else
      let kv := splitOnFirst '=' seg
      match queryUnescape ⟨kv.1⟩, queryUnescape ⟨kv.2.getD []⟩ with
      | some k, some v => some (k, v)
      | _, _ => none

/-- `url.Values.Add`: the multimap is modelled as an association list in
insertion order. -/
def valuesAdd (vs : List (String × String)) (k v : String) : List (String × String) :=
  vs ++ [(k, v)]

/-- Byte-lexicographic string order, the order Go's `sort.Strings`
applies to the query keys (UTF-8 byte order coincides with code-point
order). -/
def strLeB : List Char → List Char → Bool
  | [], _ => true
  | _ :: _, [] => false
  | a :: as, b :: bs =>
    if a.toNat < b.toNat then true
    else if b.toNat < a.toNat then false
    else strLeB as bs

/-- Insertion into a sorted list of strings. -/
def insertSorted (s : String) : List String → List String
  | [] => [s]
  | x :: xs => if strLeB s.data x.data then s :: x :: xs else x :: insertSorted s xs

/-- Sort a list of strings, as `url.Values.Encode` sorts its keys. -/
def sortStrings (l : List String) : List String := l.foldr insertSorted []

/-- Join with `'&'` separators. -/
def joinAmp : List String → String
  | [] => ""
  | [x] => x
  | x :: y :: xs => x ++ "&" ++ joinAmp (y :: xs)

/-- `url.Values.Encode`: keys in sorted order, values of one key in
insertion order, both key and value query-escaped. -/
def valuesEncode (vs : List (String × String)) : String :=
  let keys := sortStrings ((vs.map Prod.fst).eraseDups)
  joinAmp (keys.map fun k =>
    joinAmp ((vs.filter fun p => p.1 == k).map fun p =>
      queryEscape k ++ "=" ++ queryEscape p.2))

/-! ### Transport model

`session.Exec` signs and executes an HTTP request and JSON-decodes the
response body into the operation's output struct.  It is modelled as an
oracle from the built request to an outcome: either a transport error, or
a response carrying the HTTP status code, the value decoded into the
output struct, and (for the error-decoder path) the result of reading the
response body and of `json.Unmarshal`-ing it into the package's error
struct. -/

/-- The body value passed as the optional third argument of
`session.Exec` (which JSON-encodes it on the wire). -/
inductive RequestBody where
  /-- no body argument -/
  | empty
  /-- `map[string]string{request.key: request.value}` from `SearchProperties` -/
  | searchBody (key value : String)
  /-- `IncludeVersionRequest` from `CreateIncludeVersion` -/
  | includeVersionBody (createFromVersion : Int) (createFromVersionEtag : String)
  /-- `CreateConfigurationVersionCloneRequest` (its `ConfigID` is tagged `json:"-"`) -/
  | configCloneBody (createFromVersion : Int) (ruleUpdate : Bool)
deriving DecidableEq

/-- What an operation hands to the transport: the HTTP method, the URL as
parsed by `http.NewRequestWithContext`, the extra headers set on the
request, and the request body passed to `Exec`. -/
structure HttpRequest where
  method : String
  url : GoURL
  headers : List (String × String)
  body : RequestBody
deriving DecidableEq

/-- `http.NewRequestWithContext`: parses the URL string (failing when
`url.Parse` fails; the methods used here are all valid method tokens). -/
def httpNewRequest (method urlStr : String) (headers : List (String × String))
    (body : RequestBody) : Option HttpRequest :=
  match urlParse urlStr with
  | none => none
  | some u => some ⟨method, u, headers, body⟩

/-- The result of `ioutil.ReadAll(r.Body)`. -/
inductive ReadResult where
  | fail (msg : String)
  | ok (raw : String)
deriving DecidableEq

/-- The result of `json.Unmarshal(body, &e)` for an error struct `ε`. -/
inductive Unmarshal (ε : Type) where
  | fail (msg : String)
  | ok (v : ε)
deriving DecidableEq

/-- Outcome of `session.Exec`: a transport failure, or a response with
status code, the value JSON-decoded into the output struct, and the
body read / error-struct unmarshal results consumed by the package's
error decoder. -/
inductive ExecOutcome (α ε : Type) where
  | failure (msg : String)
  | response (status : Int) (decoded : α) (body : ReadResult) (um : Unmarshal ε)
deriving DecidableEq

/-! ### Error model (`pkg/papi/errors.go`, the ivm error decoder, and the
operation-level Go `error` values) -/

/-- `papi.Error` (`pkg/papi/errors.go`).  `Errors` and `Warnings` are
`json.RawMessage` carried as raw strings; the Go `Instance` field is
named `instanceURI` because `instance` is reserved in Lean. -/
structure PapiError where
  type : String := ""
  title : String := ""
  detail : String := ""
  instanceURI : String := ""
  behaviorName : String := ""
  errorLocation : String := ""
  statusCode : Int := 0
  errors : String := ""
  warnings : String := ""
  limitKey : String := ""
  limit : Option Int := none
  remaining : Option Int := none
deriving DecidableEq

/-- `ivm.Error`. -/
structure IvmError where
  type : String := ""
  title : String := ""
  detail : String := ""
  instanceURI : String := ""
  status : Int := 0
  problemID : String := ""
  requestID : String := ""
  illegalValue : String := ""
  parameterName : String := ""
  extensionFields : List (String × String) := []
deriving DecidableEq

/-- Modelled from the spec: the appsec package's error decoder (its
`errors.go` is not among the provided sources) parses a non-success body
into "a structured type carrying status code and problem-detail fields". -/
structure AppsecError where
  type : String := ""
  title : String := ""
  detail : String := ""
  status : Int := 0
deriving DecidableEq

/-- `(*papi).Error` (`pkg/papi/errors.go` lines 30-53): on a body-read
failure the status code, a fixed title and the read error are set; on an
unmarshal failure a fixed title and the unmarshal error are set; in every
read-success case `e.StatusCode` is overwritten with `r.StatusCode`
after unmarshalling. -/
def papiErrorFrom (statusCode : Int) (body : ReadResult) (um : Unmarshal PapiError) :
    PapiError :=
  match body with
  | .fail msg =>
    { statusCode := statusCode, title := "Failed to read error body", detail := msg }
  | .ok _raw =>
    let e : PapiError :=
      match um with
      | .fail msg => { title := "Failed to unmarshal error body", detail := msg }
      | .ok v => v
    { e with statusCode := statusCode }

/-- `(*ivm).Error`: on a body-read failure the status code, a fixed title
and the read error are set; on an unmarshal failure the raw body becomes
the title and the status code is overwritten; on unmarshal success the
decoded struct is returned as-is, its `Status` coming from the JSON body
only. -/
def ivmErrorFrom (statusCode : Int) (body : ReadResult) (um : Unmarshal IvmError) :
    IvmError :=
  match body with
  | .fail msg =>
    { status := statusCode, title := "Failed to read error body", detail := msg }
  | .ok raw =>
    match um with
    | .fail _msg => { title := raw, status := statusCode }
    | .ok v => v

/-- Modelled from the spec: the appsec error decoder maps a non-success
response to a structured error "carrying status code and problem-detail
fields". -/
def appsecErrorFrom (statusCode : Int) (body : ReadResult) (um : Unmarshal AppsecError) :
    AppsecError :=
  match body with
  | .fail msg =>
    { status := statusCode, title := "Failed to read error body", detail := msg }
  | .ok _raw =>
    let e : AppsecError :=
      match um with
      | .fail msg => { title := "Failed to unmarshal error body", detail := msg }
      | .ok v => v
    { e with status := statusCode }

/-- One line of the JSON rendering produced by
`json.MarshalIndent(e, "", "\t")` for a string field without `omitempty`. -/
def jsonStrLine (k v : String) : List String :=
  ["\t\"" ++ k ++ "\": \"" ++ v ++ "\""]

/-- As `jsonStrLine`, for a string field with `omitempty`. -/
def jsonStrLineOmit (k v : String) : List String :=
  if v = "" then [] else jsonStrLine k v

/-- As `jsonStrLine`, for an `int` field with `omitempty`. -/
def jsonIntLineOmit (k : String) (v : Int) : List String :=
  if v = 0 then [] else ["\t\"" ++ k ++ "\": " ++ toString v]

/-- As `jsonStrLine`, for a `*int` field with `omitempty` (a nil pointer
is omitted). -/
def jsonOptIntLine (k : String) : Option Int → List String
  | none => []
  | some v => ["\t\"" ++ k ++ "\": " ++ toString v]

/-- Join JSON lines with `",\n"` separators, as `json.MarshalIndent`
lays them out. -/
def joinCommaNewline : List String → String
  | [] => ""
  | [x] => x
  | x :: y :: xs => x ++ ",\n" ++ joinCommaNewline (y :: xs)

/-- `(*Error).Error()` for `papi.Error`: the `"API error: \n"` prefix
followed by the `json.MarshalIndent` rendering of the struct, fields in
declaration order with their `omitempty` tags honoured. -/
def PapiError.errorString (e : PapiError) : String :=
  let fields :=
    jsonStrLine "type" e.type ++ jsonStrLineOmit "title" e.title ++
    jsonStrLine "detail" e.detail ++ jsonStrLineOmit "instance" e.instanceURI ++
    jsonStrLineOmit "behaviorName" e.behaviorName ++
    jsonStrLineOmit "errorLocation" e.errorLocation ++
    jsonIntLineOmit "statusCode" e.statusCode ++
    jsonStrLineOmit "errors" e.errors ++ jsonStrLineOmit "warnings" e.warnings ++
    jsonStrLineOmit "limitKey" e.limitKey ++
    (e.limit.elim [] fun v => jsonOptIntLine "limit" (some v)) ++
    (e.remaining.elim [] fun v => jsonOptIntLine "remaining" (some v))
  "API error: \n\x7b\n" ++ joinCommaNewline fields ++ "\n\x7d"

/-- The Go `error` values an operation can return, one constructor per
`return nil, ...` shape in the sources.  `opName` is the sentinel or
format prefix the operation wraps around the underlying error (e.g.
`ErrCreateIncludeVersion` = "create an include version"; the
`SearchProperties` validation error has no prefix). -/
inductive OpError where
  /-- `fmt.Errorf("...%w...", ErrStructValidation, err)`: a failed
  validation, wrapping `ErrStructValidation` and the field errors -/
  | structValidation (opName : String) (fields : List (String × String))
  /-- `http.NewRequestWithContext` failed -/
  | requestCreationFailed (opName : String)
  /-- `url.Parse` failed -/
  | parseURLFailed (opName : String)
  /-- `p.Exec` returned an error -/
  | execFailed (opName : String) (msg : String)
  /-- `SearchProperties` on 404: `fmt.Errorf("%w: %s", session.ErrNotFound, searchURL)` -/
  | notFound (url : String)
  /-- `SearchProperties` on other non-200: `session.NewAPIError(resp, logger)` -/
  | sessionAPIError (status : Int)
  /-- a papi operation wrapping `p.Error(resp)` -/
  | papiAPI (opName : String) (e : PapiError)
  /-- an appsec operation returning `p.Error(resp)` -/
  | appsecAPI (e : AppsecError)
deriving DecidableEq

/-- Whether the Go error wraps the sentinel `ErrStructValidation`
(so that `errors.Is(err, ErrStructValidation)` holds). -/
def OpError.wrapsStructValidation : OpError → Bool
  | .structValidation _ _ => true
  | _ => false

/-- The result of one SDK operation: the client value after the call (the
papi client carries `usePrefixes`; the appsec operations read no client
state, modelled as `Unit`), the HTTP requests handed to the transport,
and the Go multi-value return `(*Response, error)` as a pair of options. -/
structure OpResult (σ α : Type) where
  state : σ
  sent : List HttpRequest
  resp : Option α
  err : Option OpError
deriving DecidableEq

/-- The errors a `papi.Error` can be compared against with `errors.Is`:
the two sentinels consulted by `(*Error).Is`, another `*papi.Error`
(matched by `errors.As`), or an unrelated error. -/
inductive GoError where
  | sbdNotEnabled
  | defaultCertLimitReached
  | papiErr (t : PapiError)
  | otherErr (msg : String)
deriving DecidableEq

/-- `(*Error).isErrSBDNotEnabled` (`pkg/papi/errors.go` line 88). -/
def PapiError.isErrSBDNotEnabled (e : PapiError) : Bool :=
  e.statusCode == 403 &&
  e.type == "https://problems.luna.akamaiapis.net/papi/v0/property-version-hostname/default-cert-provisioning-unavailable"

/-- `(*Error).isErrDefaultCertLimitReached` (`pkg/papi/errors.go` line 92):
status 429, limit key `DEFAULT_CERTS_PER_CONTRACT` and a non-nil
`Remaining` pointing at 0. -/
def PapiError.isErrDefaultCertLimitReached (e : PapiError) : Bool :=
  e.statusCode == 429 && e.limitKey == "DEFAULT_CERTS_PER_CONTRACT" &&
  e.remaining == some 0

/-- `(*Error).Is` (`pkg/papi/errors.go` lines 64-86): the two sentinel
comparisons come first; otherwise `errors.As` extracts another
`*papi.Error` (the Go pointer-equality shortcut is subsumed by the
field comparisons) and the errors compare by status code and rendered
message. -/
def PapiError.Is (e : PapiError) (target : GoError) : Bool :=
  match target with
  | .sbdNotEnabled => e.isErrSBDNotEnabled
  | .defaultCertLimitReached => e.isErrDefaultCertLimitReached
  | .papiErr t =>
    if e.statusCode != t.statusCode then false
    else e.errorString == t.errorString
  | .otherErr _ => false

/-! ### Validators (ozzo-validation as used by the request structs)

`validation.Validate(v, rules...)` applies the rules in order and stops
at the first failure.  `validation.Required` fails on the zero value
(`""` for strings, `0` for ints); `validation.In` skips empty values and
otherwise fails when the value is not in the allowed list.
`validation.Errors{...}.Filter()` returns nil iff no field failed. -/

/-- `validation.Required` on a string field. -/
def requiredString (s : String) : Option String :=
  if s = "" then some "cannot be blank" else none

/-- `validation.Required` on an int field. -/
def requiredInt (n : Int) : Option String :=
  if n = 0 then some "cannot be blank" else none

/-- `validation.In(allowed...)` on a string field: empty values are
skipped, others must be in the allowed list. -/
def inStrings (allowed : List String) (s : String) : Option String :=
  if s = "" then none
  else if allowed.contains s then none
  else some "must be a valid value"

/-- Apply the rules of one `validation.Validate(v, rules...)` call in
order, returning the first failure. -/
def ruleChain (s : String) : List (String → Option String) → Option String
  | [] => none
  | r :: rs =>
    match r s with
    | some m => some m
    | none => ruleChain s rs

/-- `validation.Errors{...}.Filter()`: keep the fields whose rule failed;
nil iff none failed. -/
def errorsFilter (l : List (String × Option String)) : Option (List (String × String)) :=
  let es := l.filterMap fun p => p.2.map fun m => (p.1, m)
  if es.isEmpty then none else some es

/-- Modelled from the spec: `edgegriderr.ParseValidationErrors`
(`pkg/edgegriderr`, not among the provided sources) flattens an ozzo
`validation.Errors` map into a single readable error, returning nil
exactly when no field failed. -/
def ParseValidationErrors (l : List (String × Option String)) :
    Option (List (String × String)) :=
  errorsFilter l

/-! ### Data model and validators: `pkg/papi/search.go` -/

/-- `papi.SearchItem`. -/
structure SearchItem where
  accountID : String := ""
  assetID : String := ""
  contractID : String := ""
  edgeHostname : String := ""
  groupID : String := ""
  hostname : String := ""
  productionStatus : String := ""
  propertyID : String := ""
  propertyName : String := ""
  propertyVersion : Int := 0
  stagingStatus : String := ""
  updatedByUser : String := ""
  updatedDate : String := ""
deriving DecidableEq

/-- `papi.SearchItems`. -/
structure SearchItems where
  items : List SearchItem := []
deriving DecidableEq

/-- `papi.SearchResponse`. -/
structure SearchResponse where
  versions : SearchItems := {}
deriving DecidableEq

/-- `papi.SearchRequest`: an unexported key-value pair. -/
structure SearchRequest where
  key : String
  value : String
deriving DecidableEq

/-- `papi.SearchKeyEdgeHostname`. -/
def SearchKeyEdgeHostname : String := "edgeHostname"
/-- `papi.SearchKeyHostname`. -/
def SearchKeyHostname : String := "hostname"
/-- `papi.SearchKeyPropertyName`. -/
def SearchKeyPropertyName : String := "propertyName"

/-- `SearchRequest.Validate` (`pkg/papi/search.go` lines 66-73):
`SearchKey` must be present and one of the three allowed keys,
`SearchValue` must be present. -/
def SearchRequest.Validate (s : SearchRequest) : Option (List (String × String)) :=
  errorsFilter [
    ("SearchKey", ruleChain s.key
      [requiredString,
       inStrings [SearchKeyEdgeHostname, SearchKeyHostname, SearchKeyPropertyName]]),
    ("SearchValue", ruleChain s.value [requiredString])]

/-! ### Data model and validators: papi include versions -/

/-- `papi.IncludeVersionRequest`, the body of `CreateIncludeVersion`. -/
structure IncludeVersionRequest where
  CreateFromVersion : Int := 0
  CreateFromVersionEtag : String := ""
deriving DecidableEq

/-- `papi.CreateIncludeVersionRequest`; the Go struct embeds
`IncludeVersionRequest`, modelled as the named field `IncludeVersionReq`. -/
structure CreateIncludeVersionRequest where
  IncludeID : String := ""
  IncludeVersionReq : IncludeVersionRequest := {}
deriving DecidableEq

/-- `papi.CreateIncludeVersionResponse`. -/
structure CreateIncludeVersionResponse where
  versionLink : String := ""
deriving DecidableEq

/-- `papi.GetIncludeVersionRequest`. -/
structure GetIncludeVersionRequest where
  IncludeID : String := ""
  Version : Int := 0
  ContractID : String := ""
  GroupID : String := ""
deriving DecidableEq

/-- `papi.ListIncludeVersionsRequest`. -/
structure ListIncludeVersionsRequest where
  IncludeID : String := ""
  ContractID : String := ""
  GroupID : String := ""
deriving DecidableEq

/-- `papi.IncludeVersion`; the status fields hold `StatusType` strings. -/
structure IncludeVersion where
  updatedByUser : String := ""
  updatedDate : String := ""
  productionStatus : String := ""
  etag : String := ""
  productID : String := ""
  note : String := ""
  ruleFormat : String := ""
  includeVersion : Int := 0
  stagingStatus : String := ""
deriving DecidableEq

/-- `papi.Versions`. -/
structure Versions where
  items : List IncludeVersion := []
deriving DecidableEq

/-- `papi.IncludeVersionResponse`. -/
structure IncludeVersionResponse where
  includeID : String := ""
  includeName : String := ""
  accountID : String := ""
  contractID : String := ""
  groupID : String := ""
  assetID : String := ""
  includeType : String := ""
  includeVersions : Versions := {}
deriving DecidableEq

/-- `papi.ListAvailableCriteriaRequest`. -/
structure ListAvailableCriteriaRequest where
  IncludeID : String := ""
  Version : Int := 0
deriving DecidableEq

/-- `papi.Criteria`. -/
structure Criteria where
  name : String := ""
  schemaLink : String := ""
deriving DecidableEq

/-- `papi.AvailableCriteriaResponse`. -/
structure AvailableCriteriaResponse where
  contractID : String := ""
  groupID : String := ""
  productID : String := ""
  ruleFormat : String := ""
  availableCriteria : List Criteria := []
deriving DecidableEq

/-- `papi.ListAvailableBehaviorsRequest`. -/
structure ListAvailableBehaviorsRequest where
  IncludeID : String := ""
  Version : Int := 0
deriving DecidableEq

/-- `papi.Behavior`. -/
structure Behavior where
  name : String := ""
  schemaLink : String := ""
deriving DecidableEq

/-- `papi.AvailableBehaviorsResponse`. -/
structure AvailableBehaviorsResponse where
  contractID : String := ""
  groupID : String := ""
  productID : String := ""
  ruleFormat : String := ""
  availableBehaviors : List Behavior := []
deriving DecidableEq

/-- `CreateIncludeVersionRequest.Validate`: `IncludeID` and the embedded
`CreateFromVersion` are required. -/
def CreateIncludeVersionRequest.Validate (i : CreateIncludeVersionRequest) :
    Option (List (String × String)) :=
  ParseValidationErrors [
    ("IncludeID", requiredString i.IncludeID),
    ("CreateFromVersion", requiredInt i.IncludeVersionReq.CreateFromVersion)]

/-- `GetIncludeVersionRequest.Validate`. -/
def GetIncludeVersionRequest.Validate (i : GetIncludeVersionRequest) :
    Option (List (String × String)) :=
  ParseValidationErrors [
    ("IncludeID", requiredString i.IncludeID),
    ("Version", requiredInt i.Version),
    ("ContractID", requiredString i.ContractID),
    ("GroupID", requiredString i.GroupID)]

/-- `ListIncludeVersionsRequest.Validate`. -/
def ListIncludeVersionsRequest.Validate (i : ListIncludeVersionsRequest) :
    Option (List (String × String)) :=
  ParseValidationErrors [
    ("IncludeID", requiredString i.IncludeID),
    ("ContractID", requiredString i.ContractID),
    ("GroupID", requiredString i.GroupID)]

/-- `ListAvailableCriteriaRequest.Validate`. -/
def ListAvailableCriteriaRequest.Validate (i : ListAvailableCriteriaRequest) :
    Option (List (String × String)) :=
  ParseValidationErrors [
    ("IncludeID", requiredString i.IncludeID),
    ("Version", requiredInt i.Version)]

/-- `ListAvailableBehaviorsRequest.Validate`. -/
def ListAvailableBehaviorsRequest.Validate (i : ListAvailableBehaviorsRequest) :
    Option (List (String × String)) :=
  ParseValidationErrors [
    ("IncludeID", requiredString i.IncludeID),
    ("Version", requiredInt i.Version)]

/-! ### Data model and validators: appsec configuration version clone -/

/-- `time.Time` fields of the appsec DTOs, carried opaquely. -/
structure GoTime where
  rfc3339 : String := ""
deriving DecidableEq

/-- The anonymous `Production` struct of the appsec DTOs. -/
structure ProductionInfo where
  status : String := ""
  time : GoTime := {}
deriving DecidableEq

/-- The anonymous `Staging` struct of the appsec DTOs. -/
structure StagingInfo where
  status : String := ""
deriving DecidableEq

/-- `appsec.GetConfigurationVersionCloneRequest`. -/
structure GetConfigurationVersionCloneRequest where
  ConfigID : Int := 0
  ConfigName : String := ""
  Version : Int := 0
  VersionNotes : String := ""
  CreateDate : GoTime := {}
  CreatedBy : String := ""
  BasedOn : Int := 0
  Production : ProductionInfo := {}
  Staging : StagingInfo := {}
deriving DecidableEq

/-- `appsec.GetConfigurationVersionCloneResponse`. -/
structure GetConfigurationVersionCloneResponse where
  configID : Int := 0
  configName : String := ""
  version : Int := 0
  versionNotes : String := ""
  createDate : GoTime := {}
  createdBy : String := ""
  basedOn : Int := 0
  production : ProductionInfo := {}
  staging : StagingInfo := {}
deriving DecidableEq

/-- `appsec.CreateConfigurationVersionCloneRequest`. -/
structure CreateConfigurationVersionCloneRequest where
  ConfigID : Int := 0
  CreateFromVersion : Int := 0
  RuleUpdate : Bool := false
deriving DecidableEq

/-- `appsec.CreateConfigurationVersionCloneResponse`. -/
structure CreateConfigurationVersionCloneResponse where
  configID : Int := 0
  configName : String := ""
  version : Int := 0
  versionNotes : String := ""
  createDate : GoTime := {}
  createdBy : String := ""
  basedOn : Int := 0
  production : ProductionInfo := {}
  staging : StagingInfo := {}
deriving DecidableEq

/-- `appsec.RemoveConfigurationVersionCloneRequest`. -/
structure RemoveConfigurationVersionCloneRequest where
  ConfigID : Int := 0
  Version : Int := 0
deriving DecidableEq

/-- `appsec.RemoveConfigurationVersionCloneResponse`. -/
structure RemoveConfigurationVersionCloneResponse where
  empty : String := ""
deriving DecidableEq

/-- `GetConfigurationVersionCloneRequest.Validate`: `ConfigID` and
`Version` are required ints. -/
def GetConfigurationVersionCloneRequest.Validate
    (v : GetConfigurationVersionCloneRequest) : Option (List (String × String)) :=
  errorsFilter [
    ("ConfigID", requiredInt v.ConfigID),
    ("Version", requiredInt v.Version)]

/-- `CreateConfigurationVersionCloneRequest.Validate`: `ConfigID` and
`CreateFromVersion` (under the map key `"Version"`) are required ints. -/
def CreateConfigurationVersionCloneRequest.Validate
    (v : CreateConfigurationVersionCloneRequest) : Option (List (String × String)) :=
  errorsFilter [
    ("ConfigID", requiredInt v.ConfigID),
    ("Version", requiredInt v.CreateFromVersion)]

/-- `RemoveConfigurationVersionCloneRequest.Validate`. -/
def RemoveConfigurationVersionCloneRequest.Validate
    (v : RemoveConfigurationVersionCloneRequest) : Option (List (String × String)) :=
  errorsFilter [
    ("ConfigID", requiredInt v.ConfigID),
    ("Version", requiredInt v.Version)]

/-! ### Operations -/

/-- The papi client state read by the operations (`p.usePrefixes`). -/
structure Papi where
  usePrefixes : Bool
deriving DecidableEq

/-- `cast.ToString` on a bool. -/
def goBoolString (b : Bool) : String := if b then "true" else "false"

/-- `(*papi).SearchProperties` (`pkg/papi/search.go` lines 75-104):
validate; POST to the fixed search URL with the `PAPI-Use-Prefixes`
header and the key/value map as body; 404 maps to `session.ErrNotFound`,
any other non-200 to `session.NewAPIError`, 200 to the decoded body. -/
def SearchProperties (p : Papi) (request : SearchRequest)
    (exec : HttpRequest → ExecOutcome SearchResponse PapiError) :
    OpResult Papi SearchResponse :=
  match request.Validate with
  | some ve => ⟨p, [], none, some (.structValidation "" ve)⟩
  | none =>
    match httpNewRequest "POST" "/papi/v1/search/find-by-value"
        [("PAPI-Use-Prefixes", goBoolString p.usePrefixes)]
        (.searchBody request.key request.value) with
    | none => ⟨p, [], none, some (.requestCreationFailed "SearchProperties")⟩
    | some req =>
      match exec req with
      | .failure msg => ⟨p, [req], none, some (.execFailed "SearchProperties" msg)⟩
      | .response status search _body _um =>
        if status = 404 then
          ⟨p, [req], none, some (.notFound "/papi/v1/search/find-by-value")⟩
        else if status ≠ 200 then
          ⟨p, [req], none, some (.sessionAPIError status)⟩
        else ⟨p, [req], some search, none⟩

/-- `(*papi).CreateIncludeVersion`: validate; POST
`/papi/v1/includes/{IncludeID}/versions` with the embedded
`IncludeVersionRequest` as body; only 201 is success, every other status
wraps `p.Error(resp)` in `ErrCreateIncludeVersion`. -/
def CreateIncludeVersion (p : Papi) (params : CreateIncludeVersionRequest)
    (exec : HttpRequest → ExecOutcome CreateIncludeVersionResponse PapiError) :
    OpResult Papi CreateIncludeVersionResponse :=
  match params.Validate with
  | some ve => ⟨p, [], none, some (.structValidation "create an include version" ve)⟩
  | none =>
    match httpNewRequest "POST"
        ("/papi/v1/includes/" ++ params.IncludeID ++ "/versions") []
        (.includeVersionBody params.IncludeVersionReq.CreateFromVersion
          params.IncludeVersionReq.CreateFromVersionEtag) with
    | none => ⟨p, [], none, some (.requestCreationFailed "create an include version")⟩
    | some req =>
      match exec req with
      | .failure msg =>
        ⟨p, [req], none, some (.execFailed "create an include version" msg)⟩
      | .response status result body um =>
        if status ≠ 201 then
          ⟨p, [req], none,
           some (.papiAPI "create an include version" (papiErrorFrom status body um))⟩
        else ⟨p, [req], some result, none⟩

/-- `(*papi).GetIncludeVersion`: validate; parse
`/papi/v1/includes/{IncludeID}/versions/{Version}`, add the `contractId`
and `groupId` query parameters, GET; only 200 is success. -/
def GetIncludeVersion (p : Papi) (params : GetIncludeVersionRequest)
    (exec : HttpRequest → ExecOutcome IncludeVersionResponse PapiError) :
    OpResult Papi IncludeVersionResponse :=
  match params.Validate with
  | some ve => ⟨p, [], none, some (.structValidation "get an include version" ve)⟩
  | none =>
    match urlParse ("/papi/v1/includes/" ++ params.IncludeID ++ "/versions/"
        ++ toString params.Version) with
    | none => ⟨p, [], none, some (.parseURLFailed "get an include version")⟩
    | some uri =>
      let q := valuesAdd (valuesAdd (parseQuery uri.rawQuery)
        "contractId" params.ContractID) "groupId" params.GroupID
      let uri2 := { uri with rawQuery := valuesEncode q }
      match httpNewRequest "GET" uri2.urlString [] .empty with
      | none => ⟨p, [], none, some (.requestCreationFailed "get an include version")⟩
      | some req =>
        match exec req with
        | .failure msg =>
          ⟨p, [req], none, some (.execFailed "get an include version" msg)⟩
        | .response status result body um =>
          if status ≠ 200 then
            ⟨p, [req], none,
             some (.papiAPI "get an include version" (papiErrorFrom status body um))⟩
          else ⟨p, [req], some result, none⟩

/-- `(*papi).ListIncludeVersions`: validate; parse
`/papi/v1/includes/{IncludeID}/versions`, add the `contractId` and
`groupId` query parameters, GET; only 200 is success. -/
def ListIncludeVersions (p : Papi) (params : ListIncludeVersionsRequest)
    (exec : HttpRequest → ExecOutcome IncludeVersionResponse PapiError) :
    OpResult Papi IncludeVersionResponse :=
  match params.Validate with
  | some ve => ⟨p, [], none, some (.structValidation "list include versions" ve)⟩
  | none =>
    match urlParse ("/papi/v1/includes/" ++ params.IncludeID ++ "/versions") with
    | none => ⟨p, [], none, some (.parseURLFailed "list include versions")⟩
    | some uri =>
      let q := valuesAdd (valuesAdd (parseQuery uri.rawQuery)
        "contractId" params.ContractID) "groupId" params.GroupID
      let uri2 := { uri with rawQuery := valuesEncode q }
      match httpNewRequest "GET" uri2.urlString [] .empty with
      | none => ⟨p, [], none, some (.requestCreationFailed "list include versions")⟩
      | some req =>
        match exec req with
        | .failure msg =>
          ⟨p, [req], none, some (.execFailed "list include versions" msg)⟩
        | .response status result body um =>
          if status ≠ 200 then
            ⟨p, [req], none,
             some (.papiAPI "list include versions" (papiErrorFrom status body um))⟩
          else ⟨p, [req], some result, none⟩

/-- `(*papi).ListIncludeVersionAvailableCriteria`: validate; GET
`/papi/v1/includes/{IncludeID}/versions/{Version}/available-criteria`;
only 200 is success. -/
def ListIncludeVersionAvailableCriteria (p : Papi)
    (params : ListAvailableCriteriaRequest)
    (exec : HttpRequest → ExecOutcome AvailableCriteriaResponse PapiError) :
    OpResult Papi AvailableCriteriaResponse :=
  match params.Validate with
  | some ve =>
    ⟨p, [], none, some (.structValidation "list include version available criteria" ve)⟩
  | none =>
    match httpNewRequest "GET"
        ("/papi/v1/includes/" ++ params.IncludeID ++ "/versions/"
          ++ toString params.Version ++ "/available-criteria") [] .empty with
    | none =>
      ⟨p, [], none,
       some (.requestCreationFailed "list include version available criteria")⟩
    | some req =>
      match exec req with
      | .failure msg =>
        ⟨p, [req], none,
         some (.execFailed "list include version available criteria" msg)⟩
      | .response status result body um =>
        if status ≠ 200 then
          ⟨p, [req], none,
           some (.papiAPI "list include version available criteria"
             (papiErrorFrom status body um))⟩
        else ⟨p, [req], some result, none⟩

/-- `(*papi).ListIncludeVersionAvailableBehaviors`: validate; GET
`/papi/v1/includes/{IncludeID}/versions/{Version}/available-behaviors`;
only 200 is success. -/
def ListIncludeVersionAvailableBehaviors (p : Papi)
    (params : ListAvailableBehaviorsRequest)
    (exec : HttpRequest → ExecOutcome AvailableBehaviorsResponse PapiError) :
    OpResult Papi AvailableBehaviorsResponse :=
  match params.Validate with
  | some ve =>
    ⟨p, [], none, some (.structValidation "list include version available behaviors" ve)⟩
  | none =>
    match httpNewRequest "GET"
        ("/papi/v1/includes/" ++ params.IncludeID ++ "/versions/"
          ++ toString params.Version ++ "/available-behaviors") [] .empty with
    | none =>
      ⟨p, [], none,
       some (.requestCreationFailed "list include version available behaviors")⟩
    | some req =>
      match exec req with
      | .failure msg =>
        ⟨p, [req], none,
         some (.execFailed "list include version available behaviors" msg)⟩
      | .response status result body um =>
        if status ≠ 200 then
          ⟨p, [req], none,
           some (.papiAPI "list include version available behaviors"
             (papiErrorFrom status body um))⟩
        else ⟨p, [req], some result, none⟩

/-- `(*appsec).GetConfigurationVersionClone`: validate; GET
`/appsec/v1/configs/{ConfigID}/versions/{Version}`; only 200 is
success, every other status returns `p.Error(resp)`. -/
def GetConfigurationVersionClone (params : GetConfigurationVersionCloneRequest)
    (exec : HttpRequest → ExecOutcome GetConfigurationVersionCloneResponse AppsecError) :
    OpResult Unit GetConfigurationVersionCloneResponse :=
  match params.Validate with
  | some ve => ⟨(), [], none, some (.structValidation "" ve)⟩
  | none =>
    match httpNewRequest "GET"
        ("/appsec/v1/configs/" ++ toString params.ConfigID ++ "/versions/"
          ++ toString params.Version) [] .empty with
    | none => ⟨(), [], none, some (.requestCreationFailed "GetConfigurationVersionClone")⟩
    | some req =>
      match exec req with
      | .failure msg =>
        ⟨(), [req], none, some (.execFailed "GetConfigurationVersionClone" msg)⟩
      | .response status rval body um =>
        if status ≠ 200 then
          ⟨(), [req], none, some (.appsecAPI (appsecErrorFrom status body um))⟩
        else ⟨(), [req], some rval, none⟩

/-- `(*appsec).CreateConfigurationVersionClone`: validate; POST
`/appsec/v1/configs/{ConfigID}/versions` with the request struct as
body; 200 and 201 are success. -/
def CreateConfigurationVersionClone (params : CreateConfigurationVersionCloneRequest)
    (exec : HttpRequest → ExecOutcome CreateConfigurationVersionCloneResponse AppsecError) :
    OpResult Unit CreateConfigurationVersionCloneResponse :=
  match params.Validate with
  | some ve => ⟨(), [], none, some (.structValidation "" ve)⟩
  | none =>
    match httpNewRequest "POST"
        ("/appsec/v1/configs/" ++ toString params.ConfigID ++ "/versions") []
        (.configCloneBody params.CreateFromVersion params.RuleUpdate) with
    | none =>
      ⟨(), [], none, some (.requestCreationFailed "CreateConfigurationVersionClone")⟩
    | some req =>
      match exec req with
      | .failure msg =>
        ⟨(), [req], none, some (.execFailed "CreateConfigurationVersionClone" msg)⟩
      | .response status rval body um =>
        if status ≠ 200 ∧ status ≠ 201 then
          ⟨(), [req], none, some (.appsecAPI (appsecErrorFrom status body um))⟩
        else ⟨(), [req], some rval, none⟩

/-- `(*appsec).RemoveConfigurationVersionClone`: validate; parse
`/appsec/v1/configs/{ConfigID}/versions/{Version}` and DELETE it; 204
and 200 are success. -/
def RemoveConfigurationVersionClone (params : RemoveConfigurationVersionCloneRequest)
    (exec : HttpRequest → ExecOutcome RemoveConfigurationVersionCloneResponse AppsecError) :
    OpResult Unit RemoveConfigurationVersionCloneResponse :=
  match params.Validate with
  | some ve => ⟨(), [], none, some (.structValidation "" ve)⟩
  | none =>
    match urlParse ("/appsec/v1/configs/" ++ toString params.ConfigID ++ "/versions/"
        ++ toString params.Version) with
    | none => ⟨(), [], none, some (.parseURLFailed "RemoveConfigurationVersionClone")⟩
    | some uri =>
      match httpNewRequest "DELETE" uri.urlString [] .empty with
      | none =>
        ⟨(), [], none, some (.requestCreationFailed "RemoveConfigurationVersionClone")⟩
      | some req =>
        match exec req with
        | .failure msg =>
          ⟨(), [req], none, some (.execFailed "RemoveConfigurationVersionClone" msg)⟩
        | .response status rval body um =>
          if status ≠ 204 ∧ status ≠ 200 then
            ⟨(), [req], none, some (.appsecAPI (appsecErrorFrom status body um))⟩
          else ⟨(), [req], some rval, none⟩

/-! ### Helper lemmas -/

/-- Characters that survive `url.Parse` unchanged in a path position: no
control character, `'#'`, `'?'` or `'%'`. -/
def urlPlainChar (c : Char) : Bool :=
  !isCTL c && c ≠ '#' && c ≠ '?' && c ≠ '%'

/-- Characters legal in a raw query without disturbing a re-parse of the
URL string: no control character and no `'#'`. -/
def querySafeChar (c : Char) : Bool :=
  !isCTL c && c ≠ '#'

theorem splitOnFirst_not_mem {c : Char} {l : List Char} (h : c ∉ l) :
    splitOnFirst c l = (l, none) := by
  induction l with
  | nil => rfl
  | cons x xs ih =>
    have hx : ¬x = c := fun e => h (e ▸ List.mem_cons_self x xs)
    have h2 : c ∉ xs := fun m => h (List.mem_cons_of_mem _ m)
    simp [splitOnFirst, hx, ih h2]

theorem splitOnFirst_append {c : Char} {a b : List Char} (h : c ∉ a) :
    splitOnFirst c (a ++ c :: b) = (a, some b) := by
  induction a with
  | nil => simp [splitOnFirst]
  | cons x xs ih =>
    have hx : ¬x = c := fun e => h (e ▸ List.mem_cons_self x xs)
    have h2 : c ∉ xs := fun m => h (List.mem_cons_of_mem _ m)
    simp [splitOnFirst, hx, ih h2]

theorem validEscapes_cons_ne {x : Char} {xs : List Char} (hx : ¬x = '%') :
    validEscapes (x :: xs) = validEscapes xs := by
  rw [validEscapes.eq_def]
  simp [hx]

theorem validEscapes_no_percent {l : List Char} (h : '%' ∉ l) :
    validEscapes l = true := by
  induction l with
  | nil => rfl
  | cons x xs ih =>
    have hx : ¬x = '%' := fun e => h (e ▸ List.mem_cons_self x xs)
    have h2 : '%' ∉ xs := fun m => h (List.mem_cons_of_mem _ m)
    rw [validEscapes_cons_ne hx, ih h2]

theorem unescapeChars_cons_ne {x : Char} {xs : List Char} (hx : ¬x = '%') :
    unescapeChars (x :: xs) = x :: unescapeChars xs := by
  rw [unescapeChars.eq_def]
  simp [hx]

theorem unescapeChars_no_percent {l : List Char} (h : '%' ∉ l) :
    unescapeChars l = l := by
  induction l with
  | nil => rfl
  | cons x xs ih =>
    have hx : ¬x = '%' := fun e => h (e ▸ List.mem_cons_self x xs)
    have h2 : '%' ∉ xs := fun m => h (List.mem_cons_of_mem _ m)
    rw [unescapeChars_cons_ne hx, ih h2]

theorem urlPlainChar_spec {c : Char} (h : urlPlainChar c = true) :
    isCTL c = false ∧ c ≠ '#' ∧ c ≠ '?' ∧ c ≠ '%' := by
  have h' : ((isCTL c = false ∧ ¬c = '#') ∧ ¬c = '?') ∧ ¬c = '%' := by
    simpa [urlPlainChar] using h
  exact ⟨h'.1.1.1, h'.1.1.2, h'.1.2, h'.2⟩

theorem querySafeChar_spec {c : Char} (h : querySafeChar c = true) :
    isCTL c = false ∧ c ≠ '#' := by
  simpa [querySafeChar] using h

theorem any_isCTL_false {l : List Char} (h : ∀ c ∈ l, isCTL c = false) :
    l.any isCTL = false := by
  simp only [List.any_eq_false]
  exact fun c hc => by simp [h c hc]

theorem urlParse_plain {s : String} (h : ∀ c ∈ s.data, urlPlainChar c = true) :
    urlParse s = some ⟨s, s, "", ""⟩ := by
  have hctl : s.data.any isCTL = false :=
    any_isCTL_false fun c hc => (urlPlainChar_spec (h c hc)).1
  have hhash : '#' ∉ s.data := fun m => (urlPlainChar_spec (h _ m)).2.1 rfl
  have hq : '?' ∉ s.data := fun m => (urlPlainChar_spec (h _ m)).2.2.1 rfl
  have hpct : '%' ∉ s.data := fun m => (urlPlainChar_spec (h _ m)).2.2.2 rfl
  simp only [urlParse, hctl, Bool.false_eq_true, if_false,
    splitOnFirst_not_mem hhash, splitOnFirst_not_mem hq, Option.getD_none,
    validEscapes_no_percent hpct, unescapeChars_no_percent hpct]
  rfl

theorem strAppend_assoc (a b c : String) : a ++ b ++ c = a ++ (b ++ c) :=
  String.ext (by simp [String.data_append, List.append_assoc])

theorem urlParse_path_query {p q : String}
    (hp : ∀ c ∈ p.data, urlPlainChar c = true)
    (hq : ∀ c ∈ q.data, querySafeChar c = true) :
    urlParse (p ++ "?" ++ q) = some ⟨p, p, q, ""⟩ := by
  have hdata : (p ++ "?" ++ q).data = p.data ++ '?' :: q.data := by
    simp [String.data_append]
  have hctl : (p.data ++ '?' :: q.data).any isCTL = false := by
    apply any_isCTL_false
    intro c hc
    rcases List.mem_append.1 hc with h1 | h1
    · exact (urlPlainChar_spec (hp c h1)).1
    · rcases List.mem_cons.1 h1 with rfl | h2
      · rfl
      · exact (querySafeChar_spec (hq c h2)).1
  have hhash : '#' ∉ p.data ++ '?' :: q.data := by
    intro m
    rcases List.mem_append.1 m with h1 | h1
    · exact (urlPlainChar_spec (hp _ h1)).2.1 rfl
    · rcases List.mem_cons.1 h1 with e | h2
      · exact absurd e (by decide)
      · exact (querySafeChar_spec (hq _ h2)).2 rfl
  have hqm : '?' ∉ p.data := fun m => (urlPlainChar_spec (hp _ m)).2.2.1 rfl
  have hpct : '%' ∉ p.data := fun m => (urlPlainChar_spec (hp _ m)).2.2.2 rfl
  simp only [urlParse, hdata, hctl, Bool.false_eq_true, if_false,
    splitOnFirst_not_mem hhash, Option.getD_none, splitOnFirst_append hqm,
    validEscapes_no_percent hpct, unescapeChars_no_percent hpct]
  rfl

theorem querySafeChar_of_toNat {c : Char} (h1 : 32 ≤ c.toNat) (h2 : c.toNat ≠ 127)
    (h3 : c.toNat ≠ 35) : querySafeChar c = true := by
  have hne : ¬c = '#' := fun e => h3 (by rw [e]; rfl)
  simp only [querySafeChar, isCTL, hne, decide_not, Bool.and_eq_true,
    Bool.not_eq_true', Bool.or_eq_false_iff, decide_eq_false_iff_not, not_lt,
    Nat.beq_eq_true_eq, Bool.not_eq_false', decide_eq_true_eq]
  exact ⟨⟨h1, beq_eq_false_iff_ne.mpr h2⟩, not_false⟩

theorem hexDigitUpper_unreserved (n : Nat) : goUnreserved (hexDigitUpper n) = true := by
  rcases n with _|_|_|_|_|_|_|_|_|_|_|_|_|_|_|n <;> rfl

theorem goUnreserved_querySafe {c : Char} (h : goUnreserved c = true) :
    querySafeChar c = true := by
  have hn : (65 <= c.toNat && c.toNat <= 90) || (97 <= c.toNat && c.toNat <= 122)
      || (48 <= c.toNat && c.toNat <= 57)
      || c = '-' || c = '_' || c = '.' || c = '~' := h
  simp only [Bool.or_eq_true, Bool.and_eq_true, decide_eq_true_eq] at hn
  rcases hn with ((((((⟨h1, h2⟩ | ⟨h1, h2⟩) | ⟨h1, h2⟩) | rfl) | rfl) | rfl) | rfl)
  · exact querySafeChar_of_toNat (by omega) (by omega) (by omega)
  · exact querySafeChar_of_toNat (by omega) (by omega) (by omega)
  · exact querySafeChar_of_toNat (by omega) (by omega) (by omega)
  · decide
  · decide
  · decide
  · decide

theorem queryEscapeChar_querySafe {c : Char} :
    ∀ x ∈ queryEscapeChar c, querySafeChar x = true := by
  intro x hx
  unfold queryEscapeChar at hx
  by_cases h1 : goUnreserved c = true
  · simp [h1] at hx
    exact hx ▸ goUnreserved_querySafe h1
  · simp [h1] at hx
    by_cases h2 : c = ' '
    · simp [h2] at hx
      exact hx ▸ (by decide)
    · simp [h2] at hx
      rcases hx with ⟨b, _, rfl | rfl | rfl⟩
      · decide
      · exact goUnreserved_querySafe (hexDigitUpper_unreserved _)
      · exact goUnreserved_querySafe (hexDigitUpper_unreserved _)

theorem queryEscape_querySafe (s : String) :
    ∀ x ∈ (queryEscape s).data, querySafeChar x = true := by
  intro x hx
  have : (queryEscape s).data = s.data.flatMap queryEscapeChar := rfl
  rw [this] at hx
  rcases List.mem_flatMap.1 hx with ⟨c, _, hc⟩
  exact queryEscapeChar_querySafe x hc

theorem strAll_append {P : Char → Prop} {s t : String}
    (hs : ∀ c ∈ s.data, P c) (ht : ∀ c ∈ t.data, P c) :
    ∀ c ∈ (s ++ t).data, P c := by
  intro c hc
  rw [String.data_append] at hc
  rcases List.mem_append.1 hc with h | h
  exacts [hs c h, ht c h]

theorem digitChar_urlPlain {n : Nat} (h : n < 10) :
    urlPlainChar n.digitChar = true := by
  interval_cases n <;> decide

theorem toDigitsCore_urlPlain :
    ∀ (fuel n : Nat) (ds : List Char), (∀ c ∈ ds, urlPlainChar c = true) →
      ∀ c ∈ Nat.toDigitsCore 10 fuel n ds, urlPlainChar c = true := by
  intro fuel
  induction fuel with
  | zero =>
    intro n ds hds c hc
    rw [Nat.toDigitsCore] at hc
    exact hds c hc
  | succ fuel ih =>
    intro n ds hds c hc
    rw [Nat.toDigitsCore] at hc
    have hcons : ∀ x ∈ (n % 10).digitChar :: ds, urlPlainChar x = true := by
      intro x hxm
      rcases List.mem_cons.1 hxm with rfl | hm
      · exact digitChar_urlPlain (Nat.mod_lt n (by omega))
      · exact hds x hm
    by_cases hz : n / 10 = 0
    · simp only [hz, if_pos rfl] at hc
      simp only [if_true] at hc
      exact hcons c hc
    · rw [if_neg hz] at hc
      exact ih (n / 10) _ hcons c hc

theorem natRepr_urlPlain (n : Nat) :
    ∀ c ∈ (Nat.repr n).data, urlPlainChar c = true := by
  intro c hc
  have hd : (Nat.repr n).data = Nat.toDigitsCore 10 (n + 1) n [] := rfl
  rw [hd] at hc
  exact toDigitsCore_urlPlain (n + 1) n [] (by simp) c hc

theorem intToString_urlPlain (i : Int) :
    ∀ c ∈ (toString i).data, urlPlainChar c = true := by
  intro c hc
  cases i with
  | ofNat m => exact natRepr_urlPlain m c hc
  | negSucc m =>
    have hd : (toString (Int.negSucc m)).data = '-' :: (Nat.repr (m + 1)).data := by
      show (("-" ++ Nat.repr (m + 1)) : String).data = _
      rw [String.data_append]
      rfl
    rw [hd] at hc
    rcases List.mem_cons.1 hc with rfl | hm
    · decide
    · exact natRepr_urlPlain (m + 1) c hm

theorem urlString_path_only (s : String) :
    GoURL.urlString ⟨s, s, "", ""⟩ = s := by
  simp [GoURL.urlString, String.append_empty]

theorem urlString_path_query (s pth q : String) (hq : ¬q = "") :
    GoURL.urlString ⟨s, pth, q, ""⟩ = s ++ "?" ++ q := by
  apply String.ext
  simp [GoURL.urlString, hq, String.data_append]

theorem valuesList_pair (C G : String) :
    valuesAdd (valuesAdd (parseQuery "") "contractId" C) "groupId" G
      = [("contractId", C), ("groupId", G)] := rfl

theorem valuesEncode_contract_group (C G : String) :
    valuesEncode (valuesAdd (valuesAdd (parseQuery "") "contractId" C) "groupId" G)
      = "contractId=" ++ queryEscape C ++ "&groupId=" ++ queryEscape G := by
  rw [valuesList_pair]
  have h1 : valuesEncode [("contractId", C), ("groupId", G)]
      = queryEscape "contractId" ++ "=" ++ queryEscape C ++ "&"
        ++ (queryEscape "groupId" ++ "=" ++ queryEscape G) := rfl
  rw [h1, show (queryEscape "contractId" : String) = "contractId" from rfl,
      show (queryEscape "groupId" : String) = "groupId" from rfl]
  simp only [strAppend_assoc]
  rw [show ("groupId" : String) ++ ("=" ++ queryEscape G) = "groupId=" ++ queryEscape G from by
        rw [← strAppend_assoc]
        exact congrArg (fun s => s ++ queryEscape G) rfl]
  rw [show ("&" : String) ++ ("groupId=" ++ queryEscape G) = "&groupId=" ++ queryEscape G from by
        rw [← strAppend_assoc]
        exact congrArg (fun s => s ++ queryEscape G) rfl]
  rw [show ("contractId" : String) ++ ("=" ++ (queryEscape C ++ ("&groupId=" ++ queryEscape G)))
        = "contractId=" ++ (queryEscape C ++ ("&groupId=" ++ queryEscape G)) from by
        rw [← strAppend_assoc]
        exact congrArg (fun s => s ++ (queryEscape C ++ ("&groupId=" ++ queryEscape G))) rfl]

theorem contractGroup_ne_empty (C G : String) :
    ¬("contractId=" ++ queryEscape C ++ "&groupId=" ++ queryEscape G) = "" := by
  intro h
  have hl := congrArg String.length h
  have h11 : ("contractId=" : String).length = 11 := rfl
  have h9 : ("&groupId=" : String).length = 9 := rfl
  have h0 : ("" : String).length = 0 := rfl
  simp only [String.length_append] at hl
  omega

theorem contractGroup_querySafe (C G : String) :
    ∀ c ∈ ("contractId=" ++ queryEscape C ++ "&groupId=" ++ queryEscape G).data,
      querySafeChar c = true :=
  strAll_append (strAll_append (strAll_append (by decide) (queryEscape_querySafe C))
    (by decide)) (queryEscape_querySafe G)

theorem searchValidate_none_iff (s : SearchRequest) :
    s.Validate = none ↔
      (s.key = SearchKeyEdgeHostname ∨ s.key = SearchKeyHostname ∨
        s.key = SearchKeyPropertyName) ∧ s.value ≠ "" := by
  unfold SearchRequest.Validate errorsFilter requiredString inStrings
  by_cases h1 : s.key = "" <;> by_cases h2 : s.value = "" <;>
    by_cases h3 : s.key = SearchKeyEdgeHostname ∨ s.key = SearchKeyHostname ∨
      s.key = SearchKeyPropertyName <;>
    simp_all [ruleChain, SearchKeyEdgeHostname, SearchKeyHostname, SearchKeyPropertyName]

theorem createIncludeValidate_none_iff (i : CreateIncludeVersionRequest) :
    i.Validate = none ↔
      i.IncludeID ≠ "" ∧ i.IncludeVersionReq.CreateFromVersion ≠ 0 := by
  unfold CreateIncludeVersionRequest.Validate ParseValidationErrors errorsFilter
    requiredString requiredInt
  by_cases h1 : i.IncludeID = "" <;>
    by_cases h2 : i.IncludeVersionReq.CreateFromVersion = 0 <;> simp_all

theorem getIncludeValidate_none_iff (i : GetIncludeVersionRequest) :
    i.Validate = none ↔
      i.IncludeID ≠ "" ∧ i.Version ≠ 0 ∧ i.ContractID ≠ "" ∧ i.GroupID ≠ "" := by
  unfold GetIncludeVersionRequest.Validate ParseValidationErrors errorsFilter
    requiredString requiredInt
  by_cases h1 : i.IncludeID = "" <;> by_cases h2 : i.Version = 0 <;>
    by_cases h3 : i.ContractID = "" <;> by_cases h4 : i.GroupID = "" <;> simp_all

theorem listIncludeValidate_none_iff (i : ListIncludeVersionsRequest) :
    i.Validate = none ↔ i.IncludeID ≠ "" ∧ i.ContractID ≠ "" ∧ i.GroupID ≠ "" := by
  unfold ListIncludeVersionsRequest.Validate ParseValidationErrors errorsFilter
    requiredString
  by_cases h1 : i.IncludeID = "" <;> by_cases h2 : i.ContractID = "" <;>
    by_cases h3 : i.GroupID = "" <;> simp_all

theorem criteriaValidate_none_iff (i : ListAvailableCriteriaRequest) :
    i.Validate = none ↔ i.IncludeID ≠ "" ∧ i.Version ≠ 0 := by
  unfold ListAvailableCriteriaRequest.Validate ParseValidationErrors errorsFilter
    requiredString requiredInt
  by_cases h1 : i.IncludeID = "" <;> by_cases h2 : i.Version = 0 <;> simp_all

theorem behaviorsValidate_none_iff (i : ListAvailableBehaviorsRequest) :
    i.Validate = none ↔ i.IncludeID ≠ "" ∧ i.Version ≠ 0 := by
  unfold ListAvailableBehaviorsRequest.Validate ParseValidationErrors errorsFilter
    requiredString requiredInt
  by_cases h1 : i.IncludeID = "" <;> by_cases h2 : i.Version = 0 <;> simp_all

theorem getCfgValidate_none_iff (v : GetConfigurationVersionCloneRequest) :
    v.Validate = none ↔ v.ConfigID ≠ 0 ∧ v.Version ≠ 0 := by
  unfold GetConfigurationVersionCloneRequest.Validate errorsFilter requiredInt
  by_cases h1 : v.ConfigID = 0 <;> by_cases h2 : v.Version = 0 <;> simp_all

theorem createCfgValidate_none_iff (v : CreateConfigurationVersionCloneRequest) :
    v.Validate = none ↔ v.ConfigID ≠ 0 ∧ v.CreateFromVersion ≠ 0 := by
  unfold CreateConfigurationVersionCloneRequest.Validate errorsFilter requiredInt
  by_cases h1 : v.ConfigID = 0 <;> by_cases h2 : v.CreateFromVersion = 0 <;> simp_all

theorem removeCfgValidate_none_iff (v : RemoveConfigurationVersionCloneRequest) :
    v.Validate = none ↔ v.ConfigID ≠ 0 ∧ v.Version ≠ 0 := by
  unfold RemoveConfigurationVersionCloneRequest.Validate errorsFilter requiredInt
  by_cases h1 : v.ConfigID = 0 <;> by_cases h2 : v.Version = 0 <;> simp_all

theorem searchProperties_shape (p : Papi) (r : SearchRequest)
    (exec : HttpRequest → ExecOutcome SearchResponse PapiError) :
    (((SearchProperties p r exec).resp = none ∧ (SearchProperties p r exec).err ≠ none) ∨
      ((SearchProperties p r exec).resp ≠ none ∧ (SearchProperties p r exec).err = none)) ∧
    (SearchProperties p r exec).sent.length ≤ 1 := by
  unfold SearchProperties
  try dsimp only
  repeat' split
  all_goals simp

theorem createIncludeVersion_shape (p : Papi) (params : CreateIncludeVersionRequest)
    (exec : HttpRequest → ExecOutcome CreateIncludeVersionResponse PapiError) :
    (((CreateIncludeVersion p params exec).resp = none ∧
        (CreateIncludeVersion p params exec).err ≠ none) ∨
      ((CreateIncludeVersion p params exec).resp ≠ none ∧
        (CreateIncludeVersion p params exec).err = none)) ∧
    (CreateIncludeVersion p params exec).sent.length ≤ 1 := by
  unfold CreateIncludeVersion
  try dsimp only
  repeat' split
  all_goals simp

theorem getIncludeVersion_shape (p : Papi) (params : GetIncludeVersionRequest)
    (exec : HttpRequest → ExecOutcome IncludeVersionResponse PapiError) :
    (((GetIncludeVersion p params exec).resp = none ∧
        (GetIncludeVersion p params exec).err ≠ none) ∨
      ((GetIncludeVersion p params exec).resp ≠ none ∧
        (GetIncludeVersion p params exec).err = none)) ∧
    (GetIncludeVersion p params exec).sent.length ≤ 1 := by
  unfold GetIncludeVersion
  try dsimp only
  repeat' split
  all_goals simp

theorem listIncludeVersions_shape (p : Papi) (params : ListIncludeVersionsRequest)
    (exec : HttpRequest → ExecOutcome IncludeVersionResponse PapiError) :
    (((ListIncludeVersions p params exec).resp = none ∧
        (ListIncludeVersions p params exec).err ≠ none) ∨
      ((ListIncludeVersions p params exec).resp ≠ none ∧
        (ListIncludeVersions p params exec).err = none)) ∧
    (ListIncludeVersions p params exec).sent.length ≤ 1 := by
  unfold ListIncludeVersions
  try dsimp only
  repeat' split
  all_goals simp

theorem listCriteria_shape (p : Papi) (params : ListAvailableCriteriaRequest)
    (exec : HttpRequest → ExecOutcome AvailableCriteriaResponse PapiError) :
    (((ListIncludeVersionAvailableCriteria p params exec).resp = none ∧
        (ListIncludeVersionAvailableCriteria p params exec).err ≠ none) ∨
      ((ListIncludeVersionAvailableCriteria p params exec).resp ≠ none ∧
        (ListIncludeVersionAvailableCriteria p params exec).err = none)) ∧
    (ListIncludeVersionAvailableCriteria p params exec).sent.length ≤ 1 := by
  unfold ListIncludeVersionAvailableCriteria
  try dsimp only
  repeat' split
  all_goals simp

theorem listBehaviors_shape (p : Papi) (params : ListAvailableBehaviorsRequest)
    (exec : HttpRequest → ExecOutcome AvailableBehaviorsResponse PapiError) :
    (((ListIncludeVersionAvailableBehaviors p params exec).resp = none ∧
        (ListIncludeVersionAvailableBehaviors p params exec).err ≠ none) ∨
      ((ListIncludeVersionAvailableBehaviors p params exec).resp ≠ none ∧
        (ListIncludeVersionAvailableBehaviors p params exec).err = none)) ∧
    (ListIncludeVersionAvailableBehaviors p params exec).sent.length ≤ 1 := by
  unfold ListIncludeVersionAvailableBehaviors
  try dsimp only
  repeat' split
  all_goals simp

theorem getCfgClone_shape (params : GetConfigurationVersionCloneRequest)
    (exec : HttpRequest → ExecOutcome GetConfigurationVersionCloneResponse AppsecError) :
    (((GetConfigurationVersionClone params exec).resp = none ∧
        (GetConfigurationVersionClone params exec).err ≠ none) ∨
      ((GetConfigurationVersionClone params exec).resp ≠ none ∧
        (GetConfigurationVersionClone params exec).err = none)) ∧
    (GetConfigurationVersionClone params exec).sent.length ≤ 1 := by
  unfold GetConfigurationVersionClone
  try dsimp only
  repeat' split
  all_goals simp

theorem createCfgClone_shape (params : CreateConfigurationVersionCloneRequest)
    (exec : HttpRequest → ExecOutcome CreateConfigurationVersionCloneResponse AppsecError) :
    (((CreateConfigurationVersionClone params exec).resp = none ∧
        (CreateConfigurationVersionClone params exec).err ≠ none) ∨
      ((CreateConfigurationVersionClone params exec).resp ≠ none ∧
        (CreateConfigurationVersionClone params exec).err = none)) ∧
    (CreateConfigurationVersionClone params exec).sent.length ≤ 1 := by
  unfold CreateConfigurationVersionClone
  try dsimp only
  repeat' split
  all_goals simp

theorem removeCfgClone_shape (params : RemoveConfigurationVersionCloneRequest)
    (exec : HttpRequest → ExecOutcome RemoveConfigurationVersionCloneResponse AppsecError) :
    (((RemoveConfigurationVersionClone params exec).resp = none ∧
        (RemoveConfigurationVersionClone params exec).err ≠ none) ∨
      ((RemoveConfigurationVersionClone params exec).resp ≠ none ∧
        (RemoveConfigurationVersionClone params exec).err = none)) ∧
    (RemoveConfigurationVersionClone params exec).sent.length ≤ 1 := by
  unfold RemoveConfigurationVersionClone
  try dsimp only
  repeat' split
  all_goals simp

theorem searchProperties_state (p : Papi) (r : SearchRequest)
    (exec : HttpRequest → ExecOutcome SearchResponse PapiError) :
    (SearchProperties p r exec).state = p := by
  unfold SearchProperties
  try dsimp only
  repeat' split
  all_goals simp

theorem createIncludeVersion_state (p : Papi) (params : CreateIncludeVersionRequest)
    (exec : HttpRequest → ExecOutcome CreateIncludeVersionResponse PapiError) :
    (CreateIncludeVersion p params exec).state = p := by
  unfold CreateIncludeVersion
  try dsimp only
  repeat' split
  all_goals simp

theorem getIncludeVersion_state (p : Papi) (params : GetIncludeVersionRequest)
    (exec : HttpRequest → ExecOutcome IncludeVersionResponse PapiError) :
    (GetIncludeVersion p params exec).state = p := by
  unfold GetIncludeVersion
  try dsimp only
  repeat' split
  all_goals simp

theorem listIncludeVersions_state (p : Papi) (params : ListIncludeVersionsRequest)
    (exec : HttpRequest → ExecOutcome IncludeVersionResponse PapiError) :
    (ListIncludeVersions p params exec).state = p := by
  unfold ListIncludeVersions
  try dsimp only
  repeat' split
  all_goals simp

theorem listCriteria_state (p : Papi) (params : ListAvailableCriteriaRequest)
    (exec : HttpRequest → ExecOutcome AvailableCriteriaResponse PapiError) :
    (ListIncludeVersionAvailableCriteria p params exec).state = p := by
  unfold ListIncludeVersionAvailableCriteria
  try dsimp only
  repeat' split
  all_goals simp

theorem listBehaviors_state (p : Papi) (params : ListAvailableBehaviorsRequest)
    (exec : HttpRequest → ExecOutcome AvailableBehaviorsResponse PapiError) :
    (ListIncludeVersionAvailableBehaviors p params exec).state = p := by
  unfold ListIncludeVersionAvailableBehaviors
  try dsimp only
  repeat' split
  all_goals simp

theorem searchProperties_exec_agree (p : Papi) (r : SearchRequest)
    (exec1 exec2 : HttpRequest → ExecOutcome SearchResponse PapiError)
    (h : ∀ q ∈ (SearchProperties p r exec1).sent, exec1 q = exec2 q) :
    SearchProperties p r exec1 = SearchProperties p r exec2 := by
  rcases hv : r.Validate with _ | ve
  case some => unfold SearchProperties; rw [hv]
  have hreq : httpNewRequest "POST" "/papi/v1/search/find-by-value"
      [("PAPI-Use-Prefixes", goBoolString p.usePrefixes)] (.searchBody r.key r.value)
      = some ⟨"POST", ⟨"/papi/v1/search/find-by-value", "/papi/v1/search/find-by-value",
          "", ""⟩, [("PAPI-Use-Prefixes", goBoolString p.usePrefixes)],
          .searchBody r.key r.value⟩ := rfl
  have hmem : ∀ q, httpNewRequest "POST" "/papi/v1/search/find-by-value"
      [("PAPI-Use-Prefixes", goBoolString p.usePrefixes)] (.searchBody r.key r.value)
        = some q → q ∈ (SearchProperties p r exec1).sent := by
    intro q hq
    unfold SearchProperties
    rw [hv, hq]
    rcases hex : exec1 q with msg | ⟨st, d, b, um⟩
    · simp [hex]
    · simp only [hex]
      split
      · simp
      · split <;> simp
  have hx := h _ (hmem _ hreq)
  unfold SearchProperties
  rw [hv, hreq]
  dsimp only
  rw [hx]

theorem getCfgClone_exec_agree (params : GetConfigurationVersionCloneRequest)
    (exec1 exec2 : HttpRequest → ExecOutcome GetConfigurationVersionCloneResponse AppsecError)
    (h : ∀ q ∈ (GetConfigurationVersionClone params exec1).sent, exec1 q = exec2 q) :
    GetConfigurationVersionClone params exec1 = GetConfigurationVersionClone params exec2 := by
  rcases hv : params.Validate with _ | ve
  case some => unfold GetConfigurationVersionClone; rw [hv]
  rcases hn : httpNewRequest "GET" ("/appsec/v1/configs/" ++ toString params.ConfigID
      ++ "/versions/" ++ toString params.Version) [] .empty with _ | req
  · unfold GetConfigurationVersionClone
    rw [hv, hn]
  · have hmem : req ∈ (GetConfigurationVersionClone params exec1).sent := by
      unfold GetConfigurationVersionClone
      rw [hv, hn]
      rcases hex : exec1 req with msg | ⟨st, d, b, um⟩
      · simp [hex]
      · simp only [hex]
        split <;> simp
    have hx := h req hmem
    unfold GetConfigurationVersionClone
    rw [hv, hn]
    dsimp only
    rw [hx]

theorem searchProperties_status (p : Papi) (r : SearchRequest) (st : Int)
    (d : SearchResponse) (b : ReadResult) (um : Unmarshal PapiError)
    (hv : r.Validate = none) :
    ((SearchProperties p r (fun _ => .response st d b um)).err = none ↔ st = 200) ∧
    (st = 200 → (SearchProperties p r (fun _ => .response st d b um)).resp = some d) ∧
    (st = 404 → (SearchProperties p r (fun _ => .response st d b um)).err
      = some (.notFound "/papi/v1/search/find-by-value")) ∧
    (st ≠ 200 → st ≠ 404 → (SearchProperties p r (fun _ => .response st d b um)).err
      = some (.sessionAPIError st)) := by
  have hreq : httpNewRequest "POST" "/papi/v1/search/find-by-value"
      [("PAPI-Use-Prefixes", goBoolString p.usePrefixes)] (.searchBody r.key r.value)
      = some ⟨"POST", ⟨"/papi/v1/search/find-by-value", "/papi/v1/search/find-by-value",
          "", ""⟩, [("PAPI-Use-Prefixes", goBoolString p.usePrefixes)],
          .searchBody r.key r.value⟩ := rfl
  unfold SearchProperties
  rw [hv, hreq]
  dsimp only
  by_cases h4 : st = 404
  · subst h4
    simp
  · by_cases h2 : st = 200
    · subst h2
      simp
    · simp [h4, h2]

theorem createIncludeVersion_status (p : Papi) (params : CreateIncludeVersionRequest)
    (st : Int) (d : CreateIncludeVersionResponse) (b : ReadResult)
    (um : Unmarshal PapiError) (hv : params.Validate = none)
    (hu : ∀ c ∈ params.IncludeID.data, urlPlainChar c = true) :
    ((CreateIncludeVersion p params (fun _ => .response st d b um)).err = none ↔ st = 201) ∧
    (st = 201 → (CreateIncludeVersion p params (fun _ => .response st d b um)).resp = some d) ∧
    (st ≠ 201 → (CreateIncludeVersion p params (fun _ => .response st d b um)).resp = none ∧
      (CreateIncludeVersion p params (fun _ => .response st d b um)).err
        = some (.papiAPI "create an include version" (papiErrorFrom st b um))) := by
  have hs0 : ∀ c ∈ ("/papi/v1/includes/" ++ params.IncludeID ++ "/versions").data,
      urlPlainChar c = true :=
    strAll_append (strAll_append (by decide) hu) (by decide)
  have hreq : httpNewRequest "POST" ("/papi/v1/includes/" ++ params.IncludeID ++ "/versions")
      [] (.includeVersionBody params.IncludeVersionReq.CreateFromVersion
        params.IncludeVersionReq.CreateFromVersionEtag)
      = some ⟨"POST", ⟨"/papi/v1/includes/" ++ params.IncludeID ++ "/versions",
          "/papi/v1/includes/" ++ params.IncludeID ++ "/versions", "", ""⟩, [],
          .includeVersionBody params.IncludeVersionReq.CreateFromVersion
            params.IncludeVersionReq.CreateFromVersionEtag⟩ := by
    unfold httpNewRequest
    rw [urlParse_plain hs0]
  unfold CreateIncludeVersion
  rw [hv, hreq]
  dsimp only
  by_cases h1 : st = 201
  · subst h1
    simp
  · simp [h1]

theorem getIncludeVersion_status (p : Papi) (params : GetIncludeVersionRequest)
    (st : Int) (d : IncludeVersionResponse) (b : ReadResult)
    (um : Unmarshal PapiError) (hv : params.Validate = none)
    (hu : ∀ c ∈ params.IncludeID.data, urlPlainChar c = true) :
    ((GetIncludeVersion p params (fun _ => .response st d b um)).err = none ↔ st = 200) ∧
    (st = 200 → (GetIncludeVersion p params (fun _ => .response st d b um)).resp = some d) ∧
    (st ≠ 200 → (GetIncludeVersion p params (fun _ => .response st d b um)).resp = none ∧
      (GetIncludeVersion p params (fun _ => .response st d b um)).err
        = some (.papiAPI "get an include version" (papiErrorFrom st b um))) := by
  have hs0 : ∀ c ∈ ("/papi/v1/includes/" ++ params.IncludeID ++ "/versions/"
      ++ toString params.Version).data, urlPlainChar c = true :=
    strAll_append (strAll_append (strAll_append (by decide) hu) (by decide))
      (intToString_urlPlain _)
  unfold GetIncludeVersion
  rw [hv, urlParse_plain hs0]
  dsimp only
  rw [valuesEncode_contract_group,
    urlString_path_query _ _ _ (contractGroup_ne_empty _ _)]
  unfold httpNewRequest
  rw [urlParse_path_query hs0 (contractGroup_querySafe _ _)]
  dsimp only
  by_cases h1 : st = 200
  · subst h1
    simp
  · simp [h1]

theorem listIncludeVersions_status (p : Papi) (params : ListIncludeVersionsRequest)
    (st : Int) (d : IncludeVersionResponse) (b : ReadResult)
    (um : Unmarshal PapiError) (hv : params.Validate = none)
    (hu : ∀ c ∈ params.IncludeID.data, urlPlainChar c = true) :
    ((ListIncludeVersions p params (fun _ => .response st d b um)).err = none ↔ st = 200) ∧
    (st = 200 → (ListIncludeVersions p params (fun _ => .response st d b um)).resp = some d) ∧
    (st ≠ 200 → (ListIncludeVersions p params (fun _ => .response st d b um)).resp = none ∧
      (ListIncludeVersions p params (fun _ => .response st d b um)).err
        = some (.papiAPI "list include versions" (papiErrorFrom st b um))) := by
  have hs0 : ∀ c ∈ ("/papi/v1/includes/" ++ params.IncludeID ++ "/versions").data,
      urlPlainChar c = true :=
    strAll_append (strAll_append (by decide) hu) (by decide)
  unfold ListIncludeVersions
  rw [hv, urlParse_plain hs0]
  dsimp only
  rw [valuesEncode_contract_group,
    urlString_path_query _ _ _ (contractGroup_ne_empty _ _)]
  unfold httpNewRequest
  rw [urlParse_path_query hs0 (contractGroup_querySafe _ _)]
  dsimp only
  by_cases h1 : st = 200
  · subst h1
    simp
  · simp [h1]

theorem listCriteria_status (p : Papi) (params : ListAvailableCriteriaRequest)
    (st : Int) (d : AvailableCriteriaResponse) (b : ReadResult)
    (um : Unmarshal PapiError) (hv : params.Validate = none)
    (hu : ∀ c ∈ params.IncludeID.data, urlPlainChar c = true) :
    ((ListIncludeVersionAvailableCriteria p params (fun _ => .response st d b um)).err
        = none ↔ st = 200) ∧
    (st = 200 → (ListIncludeVersionAvailableCriteria p params
        (fun _ => .response st d b um)).resp = some d) ∧
    (st ≠ 200 → (ListIncludeVersionAvailableCriteria p params
        (fun _ => .response st d b um)).resp = none ∧
      (ListIncludeVersionAvailableCriteria p params (fun _ => .response st d b um)).err
        = some (.papiAPI "list include version available criteria"
            (papiErrorFrom st b um))) := by
  have hs0 : ∀ c ∈ ("/papi/v1/includes/" ++ params.IncludeID ++ "/versions/"
      ++ toString params.Version ++ "/available-criteria").data, urlPlainChar c = true :=
    strAll_append (strAll_append (strAll_append (strAll_append (by decide) hu)
      (by decide)) (intToString_urlPlain _)) (by decide)
  have hreq : httpNewRequest "GET" ("/papi/v1/includes/" ++ params.IncludeID
      ++ "/versions/" ++ toString params.Version ++ "/available-criteria") [] .empty
      = some ⟨"GET", ⟨"/papi/v1/includes/" ++ params.IncludeID ++ "/versions/"
          ++ toString params.Version ++ "/available-criteria",
          "/papi/v1/includes/" ++ params.IncludeID ++ "/versions/"
          ++ toString params.Version ++ "/available-criteria", "", ""⟩, [], .empty⟩ := by
    unfold httpNewRequest
    rw [urlParse_plain hs0]
  unfold ListIncludeVersionAvailableCriteria
  rw [hv, hreq]
  dsimp only
  by_cases h1 : st = 200
  · subst h1
    simp
  · simp [h1]

theorem listBehaviors_status (p : Papi) (params : ListAvailableBehaviorsRequest)
    (st : Int) (d : AvailableBehaviorsResponse) (b : ReadResult)
    (um : Unmarshal PapiError) (hv : params.Validate = none)
    (hu : ∀ c ∈ params.IncludeID.data, urlPlainChar c = true) :
    ((ListIncludeVersionAvailableBehaviors p params (fun _ => .response st d b um)).err
        = none ↔ st = 200) ∧
    (st = 200 → (ListIncludeVersionAvailableBehaviors p params
        (fun _ => .response st d b um)).resp = some d) ∧
    (st ≠ 200 → (ListIncludeVersionAvailableBehaviors p params
        (fun _ => .response st d b um)).resp = none ∧
      (ListIncludeVersionAvailableBehaviors p params (fun _ => .response st d b um)).err
        = some (.papiAPI "list include version available behaviors"
            (papiErrorFrom st b um))) := by
  have hs0 : ∀ c ∈ ("/papi/v1/includes/" ++ params.IncludeID ++ "/versions/"
      ++ toString params.Version ++ "/available-behaviors").data, urlPlainChar c = true :=
    strAll_append (strAll_append (strAll_append (strAll_append (by decide) hu)
      (by decide)) (intToString_urlPlain _)) (by decide)
  have hreq : httpNewRequest "GET" ("/papi/v1/includes/" ++ params.IncludeID
      ++ "/versions/" ++ toString params.Version ++ "/available-behaviors") [] .empty
      = some ⟨"GET", ⟨"/papi/v1/includes/" ++ params.IncludeID ++ "/versions/"
          ++ toString params.Version ++ "/available-behaviors",
          "/papi/v1/includes/" ++ params.IncludeID ++ "/versions/"
          ++ toString params.Version ++ "/available-behaviors", "", ""⟩, [], .empty⟩ := by
    unfold httpNewRequest
    rw [urlParse_plain hs0]
  unfold ListIncludeVersionAvailableBehaviors
  rw [hv, hreq]
  dsimp only
  by_cases h1 : st = 200
  · subst h1
    simp
  · simp [h1]

theorem getCfgClone_status (params : GetConfigurationVersionCloneRequest)
    (st : Int) (d : GetConfigurationVersionCloneResponse) (b : ReadResult)
    (um : Unmarshal AppsecError) (hv : params.Validate = none) :
    ((GetConfigurationVersionClone params (fun _ => .response st d b um)).err
        = none ↔ st = 200) ∧
    (st = 200 → (GetConfigurationVersionClone params
        (fun _ => .response st d b um)).resp = some d) ∧
    (st ≠ 200 → (GetConfigurationVersionClone params
        (fun _ => .response st d b um)).resp = none ∧
      (GetConfigurationVersionClone params (fun _ => .response st d b um)).err
        = some (.appsecAPI (appsecErrorFrom st b um))) := by
  have hs0 : ∀ c ∈ ("/appsec/v1/configs/" ++ toString params.ConfigID ++ "/versions/"
      ++ toString params.Version).data, urlPlainChar c = true :=
    strAll_append (strAll_append (strAll_append (by decide)
      (intToString_urlPlain _)) (by decide)) (intToString_urlPlain _)
  have hreq : httpNewRequest "GET" ("/appsec/v1/configs/" ++ toString params.ConfigID
      ++ "/versions/" ++ toString params.Version) [] .empty
      = some ⟨"GET", ⟨"/appsec/v1/configs/" ++ toString params.ConfigID ++ "/versions/"
          ++ toString params.Version,
          "/appsec/v1/configs/" ++ toString params.ConfigID ++ "/versions/"
          ++ toString params.Version, "", ""⟩, [], .empty⟩ := by
    unfold httpNewRequest
    rw [urlParse_plain hs0]
  unfold GetConfigurationVersionClone
  rw [hv, hreq]
  dsimp only
  by_cases h1 : st = 200
  · subst h1
    simp
  · simp [h1]

theorem createCfgClone_status (params : CreateConfigurationVersionCloneRequest)
    (st : Int) (d : CreateConfigurationVersionCloneResponse) (b : ReadResult)
    (um : Unmarshal AppsecError) (hv : params.Validate = none) :
    ((CreateConfigurationVersionClone params (fun _ => .response st d b um)).err
        = none ↔ st = 200 ∨ st = 201) ∧
    (st = 200 ∨ st = 201 → (CreateConfigurationVersionClone params
        (fun _ => .response st d b um)).resp = some d) ∧
    (st ≠ 200 → st ≠ 201 → (CreateConfigurationVersionClone params
        (fun _ => .response st d b um)).resp = none ∧
      (CreateConfigurationVersionClone params (fun _ => .response st d b um)).err
        = some (.appsecAPI (appsecErrorFrom st b um))) := by
  have hs0 : ∀ c ∈ ("/appsec/v1/configs/" ++ toString params.ConfigID
      ++ "/versions").data, urlPlainChar c = true :=
    strAll_append (strAll_append (by decide) (intToString_urlPlain _)) (by decide)
  have hreq : httpNewRequest "POST" ("/appsec/v1/configs/" ++ toString params.ConfigID
      ++ "/versions") [] (.configCloneBody params.CreateFromVersion params.RuleUpdate)
      = some ⟨"POST", ⟨"/appsec/v1/configs/" ++ toString params.ConfigID ++ "/versions",
          "/appsec/v1/configs/" ++ toString params.ConfigID ++ "/versions", "", ""⟩, [],
          .configCloneBody params.CreateFromVersion params.RuleUpdate⟩ := by
    unfold httpNewRequest
    rw [urlParse_plain hs0]
  unfold CreateConfigurationVersionClone
  rw [hv, hreq]
  dsimp only
  by_cases h1 : st = 200
  · subst h1
    simp
  · by_cases h2 : st = 201
    · subst h2
      simp
    · simp [h1, h2]

theorem removeCfgClone_status (params : RemoveConfigurationVersionCloneRequest)
    (st : Int) (d : RemoveConfigurationVersionCloneResponse) (b : ReadResult)
    (um : Unmarshal AppsecError) (hv : params.Validate = none) :
    ((RemoveConfigurationVersionClone params (fun _ => .response st d b um)).err
        = none ↔ st = 204 ∨ st = 200) ∧
    (st = 204 ∨ st = 200 → (RemoveConfigurationVersionClone params
        (fun _ => .response st d b um)).resp = some d) ∧
    (st ≠ 204 → st ≠ 200 → (RemoveConfigurationVersionClone params
        (fun _ => .response st d b um)).resp = none ∧
      (RemoveConfigurationVersionClone params (fun _ => .response st d b um)).err
        = some (.appsecAPI (appsecErrorFrom st b um))) := by
  have hs0 : ∀ c ∈ ("/appsec/v1/configs/" ++ toString params.ConfigID ++ "/versions/"
      ++ toString params.Version).data, urlPlainChar c = true :=
    strAll_append (strAll_append (strAll_append (by decide)
      (intToString_urlPlain _)) (by decide)) (intToString_urlPlain _)
  unfold RemoveConfigurationVersionClone
  rw [hv, urlParse_plain hs0]
  dsimp only
  rw [urlString_path_only]
  unfold httpNewRequest
  rw [urlParse_plain hs0]
  dsimp only
  by_cases h1 : st = 204
  · subst h1
    simp
  · by_cases h2 : st = 200
    · subst h2
      simp
    · simp [h1, h2]

theorem createIncludeVersion_path (p : Papi) (params : CreateIncludeVersionRequest)
    (exec : HttpRequest → ExecOutcome CreateIncludeVersionResponse PapiError)
    (hv : params.Validate = none)
    (hu : ∀ c ∈ params.IncludeID.data, urlPlainChar c = true) :
    (CreateIncludeVersion p params exec).sent = [⟨"POST",
      ⟨"/papi/v1/includes/" ++ params.IncludeID ++ "/versions",
       "/papi/v1/includes/" ++ params.IncludeID ++ "/versions", "", ""⟩, [],
      .includeVersionBody params.IncludeVersionReq.CreateFromVersion
        params.IncludeVersionReq.CreateFromVersionEtag⟩] := by
  have hs0 : ∀ c ∈ ("/papi/v1/includes/" ++ params.IncludeID ++ "/versions").data,
      urlPlainChar c = true :=
    strAll_append (strAll_append (by decide) hu) (by decide)
  have hreq : httpNewRequest "POST" ("/papi/v1/includes/" ++ params.IncludeID
      ++ "/versions") [] (.includeVersionBody params.IncludeVersionReq.CreateFromVersion
        params.IncludeVersionReq.CreateFromVersionEtag)
      = some ⟨"POST", ⟨"/papi/v1/includes/" ++ params.IncludeID ++ "/versions",
          "/papi/v1/includes/" ++ params.IncludeID ++ "/versions", "", ""⟩, [],
          .includeVersionBody params.IncludeVersionReq.CreateFromVersion
            params.IncludeVersionReq.CreateFromVersionEtag⟩ := by
    unfold httpNewRequest
    rw [urlParse_plain hs0]
  unfold CreateIncludeVersion
  rw [hv, hreq]
  dsimp only
  rcases hex : exec _ with msg | ⟨st, d, b, um⟩
  · simp [hex]
  · simp only [hex]
    split <;> simp

theorem listIncludeVersions_path (p : Papi) (params : ListIncludeVersionsRequest)
    (exec : HttpRequest → ExecOutcome IncludeVersionResponse PapiError)
    (hv : params.Validate = none)
    (hu : ∀ c ∈ params.IncludeID.data, urlPlainChar c = true) :
    (ListIncludeVersions p params exec).sent = [⟨"GET",
      ⟨"/papi/v1/includes/" ++ params.IncludeID ++ "/versions",
       "/papi/v1/includes/" ++ params.IncludeID ++ "/versions",
       "contractId=" ++ queryEscape params.ContractID ++ "&groupId="
         ++ queryEscape params.GroupID, ""⟩,
      [], .empty⟩] := by
  have hs0 : ∀ c ∈ ("/papi/v1/includes/" ++ params.IncludeID ++ "/versions").data,
      urlPlainChar c = true :=
    strAll_append (strAll_append (by decide) hu) (by decide)
  unfold ListIncludeVersions
  rw [hv, urlParse_plain hs0]
  dsimp only
  rw [valuesEncode_contract_group,
    urlString_path_query _ _ _ (contractGroup_ne_empty _ _)]
  unfold httpNewRequest
  rw [urlParse_path_query hs0 (contractGroup_querySafe _ _)]
  dsimp only
  rcases hex : exec _ with msg | ⟨st, d, b, um⟩
  · simp [hex]
  · simp only [hex]
    split <;> simp

theorem getCfgClone_path (params : GetConfigurationVersionCloneRequest)
    (exec : HttpRequest → ExecOutcome GetConfigurationVersionCloneResponse AppsecError)
    (hv : params.Validate = none) :
    (GetConfigurationVersionClone params exec).sent = [⟨"GET",
      ⟨"/appsec/v1/configs/" ++ toString params.ConfigID ++ "/versions/"
         ++ toString params.Version,
       "/appsec/v1/configs/" ++ toString params.ConfigID ++ "/versions/"
         ++ toString params.Version, "", ""⟩, [], .empty⟩] := by
  have hs0 : ∀ c ∈ ("/appsec/v1/configs/" ++ toString params.ConfigID ++ "/versions/"
      ++ toString params.Version).data, urlPlainChar c = true :=
    strAll_append (strAll_append (strAll_append (by decide)
      (intToString_urlPlain _)) (by decide)) (intToString_urlPlain _)
  have hreq : httpNewRequest "GET" ("/appsec/v1/configs/" ++ toString params.ConfigID
      ++ "/versions/" ++ toString params.Version) [] .empty
      = some ⟨"GET", ⟨"/appsec/v1/configs/" ++ toString params.ConfigID ++ "/versions/"
          ++ toString params.Version,
          "/appsec/v1/configs/" ++ toString params.ConfigID ++ "/versions/"
          ++ toString params.Version, "", ""⟩, [], .empty⟩ := by
    unfold httpNewRequest
    rw [urlParse_plain hs0]
  unfold GetConfigurationVersionClone
  rw [hv, hreq]
  dsimp only
  rcases hex : exec _ with msg | ⟨st, d, b, um⟩
  · simp [hex]
  · simp only [hex]
    split <;> simp

/-! ### Claim theorems -/

/-- C1: for every SDK operation, a request that fails validation
(required field missing or enum-constrained field outside the allowed
set) makes the operation return an error wrapping `ErrStructValidation`
and issue no HTTP request: the result equals a value with an empty sent
list that does not depend on the transport oracle at all. -/
theorem c1_validation_blocks_exec :
    (∀ (p : Papi) (r : SearchRequest) (ve : List (String × String))
        (exec : HttpRequest → ExecOutcome SearchResponse PapiError),
      r.Validate = some ve →
        SearchProperties p r exec = ⟨p, [], none, some (.structValidation "" ve)⟩) ∧
    (∀ (p : Papi) (params : CreateIncludeVersionRequest) (ve : List (String × String))
        (exec : HttpRequest → ExecOutcome CreateIncludeVersionResponse PapiError),
      params.Validate = some ve →
        CreateIncludeVersion p params exec
          = ⟨p, [], none, some (.structValidation "create an include version" ve)⟩) ∧
    (∀ (p : Papi) (params : GetIncludeVersionRequest) (ve : List (String × String))
        (exec : HttpRequest → ExecOutcome IncludeVersionResponse PapiError),
      params.Validate = some ve →
        GetIncludeVersion p params exec
          = ⟨p, [], none, some (.structValidation "get an include version" ve)⟩) ∧
    (∀ (p : Papi) (params : ListIncludeVersionsRequest) (ve : List (String × String))
        (exec : HttpRequest → ExecOutcome IncludeVersionResponse PapiError),
      params.Validate = some ve →
        ListIncludeVersions p params exec
          = ⟨p, [], none, some (.structValidation "list include versions" ve)⟩) ∧
    (∀ (p : Papi) (params : ListAvailableCriteriaRequest) (ve : List (String × String))
        (exec : HttpRequest → ExecOutcome AvailableCriteriaResponse PapiError),
      params.Validate = some ve →
        ListIncludeVersionAvailableCriteria p params exec
          = ⟨p, [], none,
             some (.structValidation "list include version available criteria" ve)⟩) ∧
    (∀ (p : Papi) (params : ListAvailableBehaviorsRequest) (ve : List (String × String))
        (exec : HttpRequest → ExecOutcome AvailableBehaviorsResponse PapiError),
      params.Validate = some ve →
        ListIncludeVersionAvailableBehaviors p params exec
          = ⟨p, [], none,
             some (.structValidation "list include version available behaviors" ve)⟩) ∧
    (∀ (params : GetConfigurationVersionCloneRequest) (ve : List (String × String))
        (exec : HttpRequest → ExecOutcome GetConfigurationVersionCloneResponse AppsecError),
      params.Validate = some ve →
        GetConfigurationVersionClone params exec
          = ⟨(), [], none, some (.structValidation "" ve)⟩) ∧
    (∀ (params : CreateConfigurationVersionCloneRequest) (ve : List (String × String))
        (exec : HttpRequest → ExecOutcome CreateConfigurationVersionCloneResponse AppsecError),
      params.Validate = some ve →
        CreateConfigurationVersionClone params exec
          = ⟨(), [], none, some (.structValidation "" ve)⟩) ∧
    (∀ (params : RemoveConfigurationVersionCloneRequest) (ve : List (String × String))
        (exec : HttpRequest → ExecOutcome RemoveConfigurationVersionCloneResponse AppsecError),
      params.Validate = some ve →
        RemoveConfigurationVersionClone params exec
          = ⟨(), [], none, some (.structValidation "" ve)⟩) ∧
    (∀ (nm : String) (fields : List (String × String)),
      (OpError.structValidation nm fields).wrapsStructValidation = true) := by
  refine ⟨?_, ?_, ?_, ?_, ?_, ?_, ?_, ?_, ?_, ?_⟩
  · intro p r ve exec hv
    unfold SearchProperties
    rw [hv]
  · intro p params ve exec hv
    unfold CreateIncludeVersion
    rw [hv]
  · intro p params ve exec hv
    unfold GetIncludeVersion
    rw [hv]
  · intro p params ve exec hv
    unfold ListIncludeVersions
    rw [hv]
  · intro p params ve exec hv
    unfold ListIncludeVersionAvailableCriteria
    rw [hv]
  · intro p params ve exec hv
    unfold ListIncludeVersionAvailableBehaviors
    rw [hv]
  · intro params ve exec hv
    unfold GetConfigurationVersionClone
    rw [hv]
  · intro params ve exec hv
    unfold CreateConfigurationVersionClone
    rw [hv]
  · intro params ve exec hv
    unfold RemoveConfigurationVersionClone
    rw [hv]
  · intro nm fields
    rfl

/-- C1 witness: `SearchProperties` on the empty search request returns
the validation error without consulting the transport. -/
theorem c1_witness :
    SearchProperties ⟨true⟩ ⟨"", ""⟩ (fun _ => .failure "transport must not be called")
      = ⟨⟨true⟩, [], none, some (.structValidation ""
          [("SearchKey", "cannot be blank"), ("SearchValue", "cannot be blank")])⟩ :=
  c1_validation_blocks_exec.1 ⟨true⟩ ⟨"", ""⟩
    [("SearchKey", "cannot be blank"), ("SearchValue", "cannot be blank")]
    (fun _ => .failure "transport must not be called") (by decide)

/-- C5: every operation returns exactly one of a non-nil response with
nil error or a nil response with non-nil error, and hands the transport
at most one request (no retry). -/
theorem c5_dichotomy_no_retry :
    (∀ (p : Papi) (r : SearchRequest)
        (exec : HttpRequest → ExecOutcome SearchResponse PapiError),
      (((SearchProperties p r exec).resp = none ∧ (SearchProperties p r exec).err ≠ none) ∨
        ((SearchProperties p r exec).resp ≠ none ∧ (SearchProperties p r exec).err = none)) ∧
      (SearchProperties p r exec).sent.length ≤ 1) ∧
    (∀ (p : Papi) (params : CreateIncludeVersionRequest)
        (exec : HttpRequest → ExecOutcome CreateIncludeVersionResponse PapiError),
      (((CreateIncludeVersion p params exec).resp = none ∧
          (CreateIncludeVersion p params exec).err ≠ none) ∨
        ((CreateIncludeVersion p params exec).resp ≠ none ∧
          (CreateIncludeVersion p params exec).err = none)) ∧
      (CreateIncludeVersion p params exec).sent.length ≤ 1) ∧
    (∀ (p : Papi) (params : GetIncludeVersionRequest)
        (exec : HttpRequest → ExecOutcome IncludeVersionResponse PapiError),
      (((GetIncludeVersion p params exec).resp = none ∧
          (GetIncludeVersion p params exec).err ≠ none) ∨
        ((GetIncludeVersion p params exec).resp ≠ none ∧
          (GetIncludeVersion p params exec).err = none)) ∧
      (GetIncludeVersion p params exec).sent.length ≤ 1) ∧
    (∀ (p : Papi) (params : ListIncludeVersionsRequest)
        (exec : HttpRequest → ExecOutcome IncludeVersionResponse PapiError),
      (((ListIncludeVersions p params exec).resp = none ∧
          (ListIncludeVersions p params exec).err ≠ none) ∨
        ((ListIncludeVersions p params exec).resp ≠ none ∧
          (ListIncludeVersions p params exec).err = none)) ∧
      (ListIncludeVersions p params exec).sent.length ≤ 1) ∧
    (∀ (p : Papi) (params : ListAvailableCriteriaRequest)
        (exec : HttpRequest → ExecOutcome AvailableCriteriaResponse PapiError),
      (((ListIncludeVersionAvailableCriteria p params exec).resp = none ∧
          (ListIncludeVersionAvailableCriteria p params exec).err ≠ none) ∨
        ((ListIncludeVersionAvailableCriteria p params exec).resp ≠ none ∧
          (ListIncludeVersionAvailableCriteria p params exec).err = none)) ∧
      (ListIncludeVersionAvailableCriteria p params exec).sent.length ≤ 1) ∧
    (∀ (p : Papi) (params : ListAvailableBehaviorsRequest)
        (exec : HttpRequest → ExecOutcome AvailableBehaviorsResponse PapiError),
      (((ListIncludeVersionAvailableBehaviors p params exec).resp = none ∧
          (ListIncludeVersionAvailableBehaviors p params exec).err ≠ none) ∨
        ((ListIncludeVersionAvailableBehaviors p params exec).resp ≠ none ∧
          (ListIncludeVersionAvailableBehaviors p params exec).err = none)) ∧
      (ListIncludeVersionAvailableBehaviors p params exec).sent.length ≤ 1) ∧
    (∀ (params : GetConfigurationVersionCloneRequest)
        (exec : HttpRequest → ExecOutcome GetConfigurationVersionCloneResponse AppsecError),
      (((GetConfigurationVersionClone params exec).resp = none ∧
          (GetConfigurationVersionClone params exec).err ≠ none) ∨
        ((GetConfigurationVersionClone params exec).resp ≠ none ∧
          (GetConfigurationVersionClone params exec).err = none)) ∧
      (GetConfigurationVersionClone params exec).sent.length ≤ 1) ∧
    (∀ (params : CreateConfigurationVersionCloneRequest)
        (exec : HttpRequest → ExecOutcome CreateConfigurationVersionCloneResponse AppsecError),
      (((CreateConfigurationVersionClone params exec).resp = none ∧
          (CreateConfigurationVersionClone params exec).err ≠ none) ∨
        ((CreateConfigurationVersionClone params exec).resp ≠ none ∧
          (CreateConfigurationVersionClone params exec).err = none)) ∧
      (CreateConfigurationVersionClone params exec).sent.length ≤ 1) ∧
    (∀ (params : RemoveConfigurationVersionCloneRequest)
        (exec : HttpRequest → ExecOutcome RemoveConfigurationVersionCloneResponse AppsecError),
      (((RemoveConfigurationVersionClone params exec).resp = none ∧
          (RemoveConfigurationVersionClone params exec).err ≠ none) ∨
        ((RemoveConfigurationVersionClone params exec).resp ≠ none ∧
          (RemoveConfigurationVersionClone params exec).err = none)) ∧
      (RemoveConfigurationVersionClone params exec).sent.length ≤ 1) :=
  ⟨searchProperties_shape, createIncludeVersion_shape, getIncludeVersion_shape,
   listIncludeVersions_shape, listCriteria_shape, listBehaviors_shape,
   getCfgClone_shape, createCfgClone_shape, removeCfgClone_shape⟩

/-- C8: operations are stateless and deterministic: every papi operation
returns the client state unchanged, and the result of `SearchProperties`
and `GetConfigurationVersionClone` depends on the transport only through
its answers on the requests the operation actually sent — two calls with
equal request structs whose transports give equal responses on those
requests return equal results. -/
theorem c8_stateless_deterministic :
    (∀ (p : Papi) (r : SearchRequest)
        (exec : HttpRequest → ExecOutcome SearchResponse PapiError),
      (SearchProperties p r exec).state = p) ∧
    (∀ (p : Papi) (params : CreateIncludeVersionRequest)
        (exec : HttpRequest → ExecOutcome CreateIncludeVersionResponse PapiError),
      (CreateIncludeVersion p params exec).state = p) ∧
    (∀ (p : Papi) (params : GetIncludeVersionRequest)
        (exec : HttpRequest → ExecOutcome IncludeVersionResponse PapiError),
      (GetIncludeVersion p params exec).state = p) ∧
    (∀ (p : Papi) (params : ListIncludeVersionsRequest)
        (exec : HttpRequest → ExecOutcome IncludeVersionResponse PapiError),
      (ListIncludeVersions p params exec).state = p) ∧
    (∀ (p : Papi) (params : ListAvailableCriteriaRequest)
        (exec : HttpRequest → ExecOutcome AvailableCriteriaResponse PapiError),
      (ListIncludeVersionAvailableCriteria p params exec).state = p) ∧
    (∀ (p : Papi) (params : ListAvailableBehaviorsRequest)
        (exec : HttpRequest → ExecOutcome AvailableBehaviorsResponse PapiError),
      (ListIncludeVersionAvailableBehaviors p params exec).state = p) ∧
    (∀ (p : Papi) (r : SearchRequest)
        (exec1 exec2 : HttpRequest → ExecOutcome SearchResponse PapiError),
      (∀ q ∈ (SearchProperties p r exec1).sent, exec1 q = exec2 q) →
        SearchProperties p r exec1 = SearchProperties p r exec2) ∧
    (∀ (params : GetConfigurationVersionCloneRequest)
        (exec1 exec2 : HttpRequest → ExecOutcome GetConfigurationVersionCloneResponse AppsecError),
      (∀ q ∈ (GetConfigurationVersionClone params exec1).sent, exec1 q = exec2 q) →
        GetConfigurationVersionClone params exec1
          = GetConfigurationVersionClone params exec2) :=
  ⟨searchProperties_state, createIncludeVersion_state, getIncludeVersion_state,
   listIncludeVersions_state, listCriteria_state, listBehaviors_state,
   searchProperties_exec_agree, getCfgClone_exec_agree⟩

/-- C8 witness: two different transports that agree on the one request
`SearchProperties` sends produce identical results. -/
theorem c8_witness :
    SearchProperties ⟨true⟩ ⟨"hostname", "www.example.com"⟩
        (fun _ => .response 200 {} (.ok "") (.fail "no body"))
      = SearchProperties ⟨true⟩ ⟨"hostname", "www.example.com"⟩
        (fun q => if q.method = "POST" then .response 200 {} (.ok "") (.fail "no body")
          else .failure "unreached") :=
  c8_stateless_deterministic.2.2.2.2.2.2.1 ⟨true⟩ ⟨"hostname", "www.example.com"⟩
    (fun _ => .response 200 {} (.ok "") (.fail "no body"))
    (fun q => if q.method = "POST" then .response 200 {} (.ok "") (.fail "no body")
      else .failure "unreached")
    (by decide)

/-- C9: whenever the papi error decoder reads the response body
successfully, it overwrites the decoded struct's `StatusCode` with the
HTTP response's status code after `json.Unmarshal`, whatever status the
JSON body carried and whether or not unmarshalling succeeded. -/
theorem c9_papi_statusCode_overwritten (status : Int) (raw : String)
    (um : Unmarshal PapiError) :
    (papiErrorFrom status (.ok raw) um).statusCode = status := by
  cases um <;> rfl

/-- C3 counterexample: the ivm error decoder keeps the `status` carried
by a successfully unmarshalled JSON body, so an HTTP 500 response whose
body says `"status": 502` yields an error whose status field is 502,
not the HTTP response's 500. -/
theorem c3_counterexample_ivm_status :
    (ivmErrorFrom 500
      (.ok "\x7b\"type\":\"about:blank\",\"title\":\"Bad Gateway\",\"detail\":\"upstream connect error\",\"status\":502\x7d")
      (.ok { type := "about:blank", title := "Bad Gateway",
             detail := "upstream connect error", status := 502 })).status = 502
    ∧ (502 : Int) ≠ 500 :=
  ⟨rfl, by decide⟩

/-- C3 amended: the papi decoder always returns the HTTP status code and
takes type/title/detail from the JSON body when it unmarshals; the ivm
decoder returns the body's struct unchanged on unmarshal success (status
included), and uses the HTTP status code only when the body cannot be
read or unmarshalled. -/
theorem c3_amended_error_decoders (status : Int) (raw msg : String) (e : PapiError)
    (ie : IvmError) (um : Unmarshal PapiError) (ium : Unmarshal IvmError) :
    papiErrorFrom status (.ok raw) (.ok e) = { e with statusCode := status } ∧
    papiErrorFrom status (.ok raw) (.fail msg)
      = { title := "Failed to unmarshal error body", detail := msg,
          statusCode := status } ∧
    papiErrorFrom status (.fail msg) um
      = { statusCode := status, title := "Failed to read error body",
          detail := msg } ∧
    ivmErrorFrom status (.ok raw) (.ok ie) = ie ∧
    ivmErrorFrom status (.ok raw) (.fail msg) = { title := raw, status := status } ∧
    ivmErrorFrom status (.fail msg) ium
      = { status := status, title := "Failed to read error body", detail := msg } :=
  ⟨rfl, rfl, rfl, rfl, rfl, rfl⟩

/-- C4: `(*Error).Is` on the papi error type recognises
`ErrDefaultCertLimitReached` exactly on status 429 with limit key
`DEFAULT_CERTS_PER_CONTRACT` and a non-nil `Remaining` equal to 0, and
`ErrSBDNotEnabled` exactly on status 403 with the
default-cert-provisioning-unavailable problem type. -/
theorem c4_papi_error_is (e : PapiError) :
    (e.Is .defaultCertLimitReached = true ↔
      e.statusCode = 429 ∧ e.limitKey = "DEFAULT_CERTS_PER_CONTRACT" ∧
        e.remaining = some 0) ∧
    (e.Is .sbdNotEnabled = true ↔
      e.statusCode = 403 ∧
        e.type = "https://problems.luna.akamaiapis.net/papi/v0/property-version-hostname/default-cert-provisioning-unavailable") := by
  constructor <;>
    simp [PapiError.Is, PapiError.isErrDefaultCertLimitReached,
      PapiError.isErrSBDNotEnabled, and_assoc]

/-- C4 witness: a 429 error with the certificate limit key and zero
remaining is recognised as `ErrDefaultCertLimitReached`. -/
theorem c4_witness :
    ({ statusCode := 429, limitKey := "DEFAULT_CERTS_PER_CONTRACT",
       remaining := some 0 } : PapiError).Is .defaultCertLimitReached = true :=
  (c4_papi_error_is _).1.mpr ⟨rfl, rfl, rfl⟩

/-- C6: `SearchRequest.Validate` accepts exactly the requests whose key
is one of the three allowed search keys and whose value is non-empty;
any other request yields a validation error naming the failing field. -/
theorem c6_search_validate (s : SearchRequest) :
    (s.Validate = none ↔
      (s.key = SearchKeyEdgeHostname ∨ s.key = SearchKeyHostname ∨
        s.key = SearchKeyPropertyName) ∧ s.value ≠ "") ∧
    (∀ ve, s.Validate = some ve →
      ((¬(s.key = SearchKeyEdgeHostname ∨ s.key = SearchKeyHostname ∨
          s.key = SearchKeyPropertyName) → ∃ m, ("SearchKey", m) ∈ ve) ∧
        (s.value = "" → ("SearchValue", "cannot be blank") ∈ ve))) := by
  refine ⟨searchValidate_none_iff s, ?_⟩
  intro ve hve
  by_cases h1 : s.key = "" <;> by_cases h2 : s.value = "" <;>
    by_cases h3 : s.key = SearchKeyEdgeHostname ∨ s.key = SearchKeyHostname ∨
      s.key = SearchKeyPropertyName <;>
    simp_all [SearchRequest.Validate, errorsFilter, ruleChain, requiredString,
      inStrings, SearchKeyEdgeHostname, SearchKeyHostname, SearchKeyPropertyName]
  all_goals subst hve
  all_goals simp

/-- C6 witness: a valid request passes, the empty request fails on both
fields. -/
theorem c6_witness :
    SearchRequest.Validate ⟨"hostname", "www.example.com"⟩ = none ∧
    ∃ m, ("SearchKey", m) ∈ [("SearchKey", "cannot be blank"),
      ("SearchValue", "cannot be blank")] :=
  ⟨(c6_search_validate ⟨"hostname", "www.example.com"⟩).1.mpr (by decide),
   (c6_search_validate ⟨"", ""⟩).2
     [("SearchKey", "cannot be blank"), ("SearchValue", "cannot be blank")]
     (by decide) |>.1 (by decide)⟩

/-- C10: because `validation.Required` treats the integer zero value as
missing, every request whose `ConfigID`, `Version` or
`CreateFromVersion` is 0 is rejected with a validation error and nothing
is sent over the wire by these operations. -/
theorem c10_zero_int_rejected :
    (∀ (params : GetConfigurationVersionCloneRequest)
        (exec : HttpRequest → ExecOutcome GetConfigurationVersionCloneResponse AppsecError),
      params.ConfigID = 0 ∨ params.Version = 0 →
        (GetConfigurationVersionClone params exec).sent = [] ∧
        ∃ e, (GetConfigurationVersionClone params exec).err = some e ∧
          e.wrapsStructValidation = true) ∧
    (∀ (params : CreateConfigurationVersionCloneRequest)
        (exec : HttpRequest → ExecOutcome CreateConfigurationVersionCloneResponse AppsecError),
      params.ConfigID = 0 ∨ params.CreateFromVersion = 0 →
        (CreateConfigurationVersionClone params exec).sent = [] ∧
        ∃ e, (CreateConfigurationVersionClone params exec).err = some e ∧
          e.wrapsStructValidation = true) ∧
    (∀ (params : RemoveConfigurationVersionCloneRequest)
        (exec : HttpRequest → ExecOutcome RemoveConfigurationVersionCloneResponse AppsecError),
      params.ConfigID = 0 ∨ params.Version = 0 →
        (RemoveConfigurationVersionClone params exec).sent = [] ∧
        ∃ e, (RemoveConfigurationVersionClone params exec).err = some e ∧
          e.wrapsStructValidation = true) ∧
    (∀ (p : Papi) (params : CreateIncludeVersionRequest)
        (exec : HttpRequest → ExecOutcome CreateIncludeVersionResponse PapiError),
      params.IncludeVersionReq.CreateFromVersion = 0 →
        (CreateIncludeVersion p params exec).sent = [] ∧
        ∃ e, (CreateIncludeVersion p params exec).err = some e ∧
          e.wrapsStructValidation = true) ∧
    (∀ (p : Papi) (params : GetIncludeVersionRequest)
        (exec : HttpRequest → ExecOutcome IncludeVersionResponse PapiError),
      params.Version = 0 →
        (GetIncludeVersion p params exec).sent = [] ∧
        ∃ e, (GetIncludeVersion p params exec).err = some e ∧
          e.wrapsStructValidation = true) ∧
    (∀ (p : Papi) (params : ListAvailableCriteriaRequest)
        (exec : HttpRequest → ExecOutcome AvailableCriteriaResponse PapiError),
      params.Version = 0 →
        (ListIncludeVersionAvailableCriteria p params exec).sent = [] ∧
        ∃ e, (ListIncludeVersionAvailableCriteria p params exec).err = some e ∧
          e.wrapsStructValidation = true) ∧
    (∀ (p : Papi) (params : ListAvailableBehaviorsRequest)
        (exec : HttpRequest → ExecOutcome AvailableBehaviorsResponse PapiError),
      params.Version = 0 →
        (ListIncludeVersionAvailableBehaviors p params exec).sent = [] ∧
        ∃ e, (ListIncludeVersionAvailableBehaviors p params exec).err = some e ∧
          e.wrapsStructValidation = true) := by
  refine ⟨?_, ?_, ?_, ?_, ?_, ?_, ?_⟩
  · intro params exec h0
    rcases hval : params.Validate with _ | ve
    · rcases (getCfgValidate_none_iff params).1 hval with ⟨hA, hB⟩
      rcases h0 with h0 | h0
      · exact absurd h0 hA
      · exact absurd h0 hB
    · unfold GetConfigurationVersionClone
      rw [hval]
      exact ⟨rfl, ⟨.structValidation "" ve, rfl, rfl⟩⟩
  · intro params exec h0
    rcases hval : params.Validate with _ | ve
    · rcases (createCfgValidate_none_iff params).1 hval with ⟨hA, hB⟩
      rcases h0 with h0 | h0
      · exact absurd h0 hA
      · exact absurd h0 hB
    · unfold CreateConfigurationVersionClone
      rw [hval]
      exact ⟨rfl, ⟨.structValidation "" ve, rfl, rfl⟩⟩
  · intro params exec h0
    rcases hval : params.Validate with _ | ve
    · rcases (removeCfgValidate_none_iff params).1 hval with ⟨hA, hB⟩
      rcases h0 with h0 | h0
      · exact absurd h0 hA
      · exact absurd h0 hB
    · unfold RemoveConfigurationVersionClone
      rw [hval]
      exact ⟨rfl, ⟨.structValidation "" ve, rfl, rfl⟩⟩
  · intro p params exec h0
    rcases hval : params.Validate with _ | ve
    · exact absurd h0 ((createIncludeValidate_none_iff params).1 hval).2
    · unfold CreateIncludeVersion
      rw [hval]
      exact ⟨rfl, ⟨.structValidation "create an include version" ve, rfl, rfl⟩⟩
  · intro p params exec h0
    rcases hval : params.Validate with _ | ve
    · exact absurd h0 ((getIncludeValidate_none_iff params).1 hval).2.1
    · unfold GetIncludeVersion
      rw [hval]
      exact ⟨rfl, ⟨.structValidation "get an include version" ve, rfl, rfl⟩⟩
  · intro p params exec h0
    rcases hval : params.Validate with _ | ve
    · exact absurd h0 ((criteriaValidate_none_iff params).1 hval).2
    · unfold ListIncludeVersionAvailableCriteria
      rw [hval]
      exact ⟨rfl, ⟨.structValidation "list include version available criteria" ve,
        rfl, rfl⟩⟩
  · intro p params exec h0
    rcases hval : params.Validate with _ | ve
    · exact absurd h0 ((behaviorsValidate_none_iff params).1 hval).2
    · unfold ListIncludeVersionAvailableBehaviors
      rw [hval]
      exact ⟨rfl, ⟨.structValidation "list include version available behaviors" ve,
        rfl, rfl⟩⟩

/-- C10 witness: version number 0 on `GetConfigurationVersionClone` is
rejected locally. -/
theorem c10_witness :
    (GetConfigurationVersionClone { ConfigID := 43253, Version := 0 }
        (fun _ => .failure "transport must not be called")).sent = [] ∧
    ∃ e, (GetConfigurationVersionClone { ConfigID := 43253, Version := 0 }
        (fun _ => .failure "transport must not be called")).err = some e ∧
      e.wrapsStructValidation = true :=
  c10_zero_int_rejected.1 { ConfigID := 43253, Version := 0 }
    (fun _ => .failure "transport must not be called") (Or.inr rfl)

/-- C2 counterexample: a 200 response is not treated as success by every
operation — `CreateIncludeVersion` on a valid request that receives HTTP
200 returns a nil response pointer and a non-nil error (its only success
status is 201). -/
theorem c2_counterexample_200_not_success :
    (CreateIncludeVersion ⟨true⟩ ⟨"inc_123", ⟨3, ""⟩⟩
        (fun _ => .response 200 {} (.ok "")
          (.fail "unexpected end of JSON input"))).resp = none ∧
    (CreateIncludeVersion ⟨true⟩ ⟨"inc_123", ⟨3, ""⟩⟩
        (fun _ => .response 200 {} (.ok "")
          (.fail "unexpected end of JSON input"))).err ≠ none := by
  constructor <;> decide

/-- C2 amended: each operation has its own success-status set —
`SearchProperties` and all GET-style papi operations accept only 200
(`SearchProperties` mapping 404 to a not-found error and other non-200
statuses to a session API error), `CreateIncludeVersion` accepts only
201, `CreateConfigurationVersionClone` accepts 200 and 201, and
`RemoveConfigurationVersionClone` accepts 204 and 200; every other
status makes the operation return the decoded structured error. -/
theorem c2_amended_status_mapping :
    (∀ (p : Papi) (r : SearchRequest) (st : Int) (d : SearchResponse)
        (b : ReadResult) (um : Unmarshal PapiError), r.Validate = none →
      ((SearchProperties p r (fun _ => .response st d b um)).err = none ↔ st = 200) ∧
      (st = 200 → (SearchProperties p r (fun _ => .response st d b um)).resp = some d) ∧
      (st = 404 → (SearchProperties p r (fun _ => .response st d b um)).err
        = some (.notFound "/papi/v1/search/find-by-value")) ∧
      (st ≠ 200 → st ≠ 404 → (SearchProperties p r (fun _ => .response st d b um)).err
        = some (.sessionAPIError st))) ∧
    (∀ (p : Papi) (params : CreateIncludeVersionRequest) (st : Int)
        (d : CreateIncludeVersionResponse) (b : ReadResult) (um : Unmarshal PapiError),
      params.Validate = none →
      (∀ c ∈ params.IncludeID.data, urlPlainChar c = true) →
      ((CreateIncludeVersion p params (fun _ => .response st d b um)).err = none ↔
        st = 201) ∧
      (st = 201 → (CreateIncludeVersion p params
        (fun _ => .response st d b um)).resp = some d) ∧
      (st ≠ 201 → (CreateIncludeVersion p params
          (fun _ => .response st d b um)).resp = none ∧
        (CreateIncludeVersion p params (fun _ => .response st d b um)).err
          = some (.papiAPI "create an include version" (papiErrorFrom st b um)))) ∧
    (∀ (p : Papi) (params : GetIncludeVersionRequest) (st : Int)
        (d : IncludeVersionResponse) (b : ReadResult) (um : Unmarshal PapiError),
      params.Validate = none →
      (∀ c ∈ params.IncludeID.data, urlPlainChar c = true) →
      ((GetIncludeVersion p params (fun _ => .response st d b um)).err = none ↔
        st = 200) ∧
      (st = 200 → (GetIncludeVersion p params
        (fun _ => .response st d b um)).resp = some d) ∧
      (st ≠ 200 → (GetIncludeVersion p params
          (fun _ => .response st d b um)).resp = none ∧
        (GetIncludeVersion p params (fun _ => .response st d b um)).err
          = some (.papiAPI "get an include version" (papiErrorFrom st b um)))) ∧
    (∀ (p : Papi) (params : ListIncludeVersionsRequest) (st : Int)
        (d : IncludeVersionResponse) (b : ReadResult) (um : Unmarshal PapiError),
      params.Validate = none →
      (∀ c ∈ params.IncludeID.data, urlPlainChar c = true) →
      ((ListIncludeVersions p params (fun _ => .response st d b um)).err = none ↔
        st = 200) ∧
      (st = 200 → (ListIncludeVersions p params
        (fun _ => .response st d b um)).resp = some d) ∧
      (st ≠ 200 → (ListIncludeVersions p params
          (fun _ => .response st d b um)).resp = none ∧
        (ListIncludeVersions p params (fun _ => .response st d b um)).err
          = some (.papiAPI "list include versions" (papiErrorFrom st b um)))) ∧
    (∀ (p : Papi) (params : ListAvailableCriteriaRequest) (st : Int)
        (d : AvailableCriteriaResponse) (b : ReadResult) (um : Unmarshal PapiError),
      params.Validate = none →
      (∀ c ∈ params.IncludeID.data, urlPlainChar c = true) →
      ((ListIncludeVersionAvailableCriteria p params
          (fun _ => .response st d b um)).err = none ↔ st = 200) ∧
      (st = 200 → (ListIncludeVersionAvailableCriteria p params
        (fun _ => .response st d b um)).resp = some d) ∧
      (st ≠ 200 → (ListIncludeVersionAvailableCriteria p params
          (fun _ => .response st d b um)).resp = none ∧
        (ListIncludeVersionAvailableCriteria p params
            (fun _ => .response st d b um)).err
          = some (.papiAPI "list include version available criteria"
              (papiErrorFrom st b um)))) ∧
    (∀ (p : Papi) (params : ListAvailableBehaviorsRequest) (st : Int)
        (d : AvailableBehaviorsResponse) (b : ReadResult) (um : Unmarshal PapiError),
      params.Validate = none →
      (∀ c ∈ params.IncludeID.data, urlPlainChar c = true) →
      ((ListIncludeVersionAvailableBehaviors p params
          (fun _ => .response st d b um)).err = none ↔ st = 200) ∧
      (st = 200 → (ListIncludeVersionAvailableBehaviors p params
        (fun _ => .response st d b um)).resp = some d) ∧
      (st ≠ 200 → (ListIncludeVersionAvailableBehaviors p params
          (fun _ => .response st d b um)).resp = none ∧
        (ListIncludeVersionAvailableBehaviors p params
            (fun _ => .response st d b um)).err
          = some (.papiAPI "list include version available behaviors"
              (papiErrorFrom st b um)))) ∧
    (∀ (params : GetConfigurationVersionCloneRequest) (st : Int)
        (d : GetConfigurationVersionCloneResponse) (b : ReadResult)
        (um : Unmarshal AppsecError), params.Validate = none →
      ((GetConfigurationVersionClone params
          (fun _ => .response st d b um)).err = none ↔ st = 200) ∧
      (st = 200 → (GetConfigurationVersionClone params
        (fun _ => .response st d b um)).resp = some d) ∧
      (st ≠ 200 → (GetConfigurationVersionClone params
          (fun _ => .response st d b um)).resp = none ∧
        (GetConfigurationVersionClone params (fun _ => .response st d b um)).err
          = some (.appsecAPI (appsecErrorFrom st b um)))) ∧
    (∀ (params : CreateConfigurationVersionCloneRequest) (st : Int)
        (d : CreateConfigurationVersionCloneResponse) (b : ReadResult)
        (um : Unmarshal AppsecError), params.Validate = none →
      ((CreateConfigurationVersionClone params
          (fun _ => .response st d b um)).err = none ↔ st = 200 ∨ st = 201) ∧
      (st = 200 ∨ st = 201 → (CreateConfigurationVersionClone params
        (fun _ => .response st d b um)).resp = some d) ∧
      (st ≠ 200 → st ≠ 201 → (CreateConfigurationVersionClone params
          (fun _ => .response st d b um)).resp = none ∧
        (CreateConfigurationVersionClone params (fun _ => .response st d b um)).err
          = some (.appsecAPI (appsecErrorFrom st b um)))) ∧
    (∀ (params : RemoveConfigurationVersionCloneRequest) (st : Int)
        (d : RemoveConfigurationVersionCloneResponse) (b : ReadResult)
        (um : Unmarshal AppsecError), params.Validate = none →
      ((RemoveConfigurationVersionClone params
          (fun _ => .response st d b um)).err = none ↔ st = 204 ∨ st = 200) ∧
      (st = 204 ∨ st = 200 → (RemoveConfigurationVersionClone params
        (fun _ => .response st d b um)).resp = some d) ∧
      (st ≠ 204 → st ≠ 200 → (RemoveConfigurationVersionClone params
          (fun _ => .response st d b um)).resp = none ∧
        (RemoveConfigurationVersionClone params (fun _ => .response st d b um)).err
          = some (.appsecAPI (appsecErrorFrom st b um)))) :=
  ⟨searchProperties_status, createIncludeVersion_status, getIncludeVersion_status,
   listIncludeVersions_status, listCriteria_status, listBehaviors_status,
   getCfgClone_status, createCfgClone_status, removeCfgClone_status⟩

/-- C2 witness: `CreateIncludeVersion` with a 201 response succeeds with
the decoded body. -/
theorem c2_witness :
    ((CreateIncludeVersion ⟨true⟩ ⟨"inc_123", ⟨3, ""⟩⟩
        (fun _ => .response 201 ⟨"/papi/v1/includes/inc_123/versions/4"⟩ (.ok "")
          (.fail "no error body"))).err = none ↔ (201 : Int) = 201) ∧
    ((201 : Int) = 201 → (CreateIncludeVersion ⟨true⟩ ⟨"inc_123", ⟨3, ""⟩⟩
        (fun _ => .response 201 ⟨"/papi/v1/includes/inc_123/versions/4"⟩ (.ok "")
          (.fail "no error body"))).resp
      = some ⟨"/papi/v1/includes/inc_123/versions/4"⟩) ∧
    ((201 : Int) ≠ 201 → (CreateIncludeVersion ⟨true⟩ ⟨"inc_123", ⟨3, ""⟩⟩
        (fun _ => .response 201 ⟨"/papi/v1/includes/inc_123/versions/4"⟩ (.ok "")
          (.fail "no error body"))).resp = none ∧
      (CreateIncludeVersion ⟨true⟩ ⟨"inc_123", ⟨3, ""⟩⟩
        (fun _ => .response 201 ⟨"/papi/v1/includes/inc_123/versions/4"⟩ (.ok "")
          (.fail "no error body"))).err
        = some (.papiAPI "create an include version"
            (papiErrorFrom 201 (.ok "") (.fail "no error body")))) :=
  c2_amended_status_mapping.2.1 ⟨true⟩ ⟨"inc_123", ⟨3, ""⟩⟩ 201
    ⟨"/papi/v1/includes/inc_123/versions/4"⟩ (.ok "") (.fail "no error body")
    (by decide) (by decide)

/-- C7: on valid requests, `CreateIncludeVersion` POSTs to
`/papi/v1/includes/{IncludeID}/versions`, `ListIncludeVersions` GETs the
same path with `contractId` and `groupId` query parameters, and
`GetConfigurationVersionClone` GETs
`/appsec/v1/configs/{ConfigID}/versions/{Version}`, the path pieces
substituted from the request struct. -/
theorem c7_url_templates :
    (∀ (p : Papi) (params : CreateIncludeVersionRequest)
        (exec : HttpRequest → ExecOutcome CreateIncludeVersionResponse PapiError),
      params.Validate = none →
      (∀ c ∈ params.IncludeID.data, urlPlainChar c = true) →
      (CreateIncludeVersion p params exec).sent = [⟨"POST",
        ⟨"/papi/v1/includes/" ++ params.IncludeID ++ "/versions",
         "/papi/v1/includes/" ++ params.IncludeID ++ "/versions", "", ""⟩, [],
        .includeVersionBody params.IncludeVersionReq.CreateFromVersion
          params.IncludeVersionReq.CreateFromVersionEtag⟩]) ∧
    (∀ (p : Papi) (params : ListIncludeVersionsRequest)
        (exec : HttpRequest → ExecOutcome IncludeVersionResponse PapiError),
      params.Validate = none →
      (∀ c ∈ params.IncludeID.data, urlPlainChar c = true) →
      (ListIncludeVersions p params exec).sent = [⟨"GET",
        ⟨"/papi/v1/includes/" ++ params.IncludeID ++ "/versions",
         "/papi/v1/includes/" ++ params.IncludeID ++ "/versions",
         "contractId=" ++ queryEscape params.ContractID ++ "&groupId="
           ++ queryEscape params.GroupID, ""⟩,
        [], .empty⟩]) ∧
    (∀ (params : GetConfigurationVersionCloneRequest)
        (exec : HttpRequest → ExecOutcome GetConfigurationVersionCloneResponse AppsecError),
      params.Validate = none →
      (GetConfigurationVersionClone params exec).sent = [⟨"GET",
        ⟨"/appsec/v1/configs/" ++ toString params.ConfigID ++ "/versions/"
           ++ toString params.Version,
         "/appsec/v1/configs/" ++ toString params.ConfigID ++ "/versions/"
           ++ toString params.Version, "", ""⟩, [], .empty⟩]) :=
  ⟨createIncludeVersion_path, listIncludeVersions_path, getCfgClone_path⟩

/-- C7 witness: the concrete request `inc_123`/`ctr_C-1`/`grp_G-2` is
sent to the expected URL with the expected query string. -/
theorem c7_witness :
    (ListIncludeVersions ⟨true⟩ ⟨"inc_123", "ctr_C-1", "grp_G-2"⟩
        (fun _ => .failure "down")).sent = [⟨"GET",
      ⟨"/papi/v1/includes/" ++ "inc_123" ++ "/versions",
       "/papi/v1/includes/" ++ "inc_123" ++ "/versions",
       "contractId=" ++ queryEscape "ctr_C-1" ++ "&groupId=" ++ queryEscape "grp_G-2",
       ""⟩, [], .empty⟩] :=
  c7_url_templates.2.1 ⟨true⟩ ⟨"inc_123", "ctr_C-1", "grp_G-2"⟩
    (fun _ => .failure "down") (by decide) (by decide)

/-- C5 witness: the dichotomy and the at-most-one-request bound at a
concrete call. -/
theorem c5_witness :
    (((SearchProperties ⟨false⟩ ⟨"propertyName", "site"⟩
          (fun _ => .response 500 {} (.ok "\x7b\x7d") (.fail "m"))).resp = none ∧
        (SearchProperties ⟨false⟩ ⟨"propertyName", "site"⟩
          (fun _ => .response 500 {} (.ok "\x7b\x7d") (.fail "m"))).err ≠ none) ∨
      ((SearchProperties ⟨false⟩ ⟨"propertyName", "site"⟩
          (fun _ => .response 500 {} (.ok "\x7b\x7d") (.fail "m"))).resp ≠ none ∧
        (SearchProperties ⟨false⟩ ⟨"propertyName", "site"⟩
          (fun _ => .response 500 {} (.ok "\x7b\x7d") (.fail "m"))).err = none)) ∧
    (SearchProperties ⟨false⟩ ⟨"propertyName", "site"⟩
      (fun _ => .response 500 {} (.ok "\x7b\x7d") (.fail "m"))).sent.length ≤ 1 :=
  c5_dichotomy_no_retry.1 ⟨false⟩ ⟨"propertyName", "site"⟩
    (fun _ => .response 500 {} (.ok "\x7b\x7d") (.fail "m"))

/-- C9 witness: a body claiming status 499 under an HTTP 500 response
still decodes to status code 500. -/
theorem c9_witness :
    (papiErrorFrom 500 (.ok "\x7b\"statusCode\":499\x7d")
      (.ok { statusCode := 499 })).statusCode = 500 :=
  c9_papi_statusCode_overwritten 500 "\x7b\"statusCode\":499\x7d"
    (.ok { statusCode := 499 })

/-- C3 witness: the amended decoder description at concrete inputs. -/
theorem c3_witness :
    papiErrorFrom 500 (.ok "\x7b\"title\":\"T\"\x7d")
        (.ok { title := "T" }) = { title := "T", statusCode := 500 } ∧
    ivmErrorFrom 500 (.ok "\x7b\"title\":\"T\",\"status\":502\x7d")
        (.ok { title := "T", status := 502 }) = { title := "T", status := 502 } :=
  ⟨(c3_amended_error_decoders 500 "\x7b\"title\":\"T\"\x7d" "m" { title := "T" } {}
      (.fail "m") (.fail "m")).1,
   (c3_amended_error_decoders 500 "\x7b\"title\":\"T\",\"status\":502\x7d" "m" {}
      { title := "T", status := 502 } (.fail "m") (.fail "m")).2.2.2.1⟩
